import Mathlib

/-!
# Project-Aether: the smart-link proxy actor

A shallow embedding of `Source/ProjectAether/Private/SmartLinkProxy.cpp` and
`Source/ProjectAether/Public/SmartLinkProxy.h`.

* In the first embedding lengths and coordinates are exact rationals (`ℚ`): it
  reads the program's arithmetic as exact. A second embedding, in the section on
  floating point, repeats `SnapEndToMagnitude` and the members it calls in
  IEEE 754 arithmetic, for the statements that depend on rounding or on NaN.
* The actor is a record that is passed through every member function; a member
  function that returns `void` returns the updated record.
* Pointers to sub-objects (`StartArrow`, `EndArrow`, the smart-link component)
  are `Option`s: `none` is the null pointer.
* Calls into engine collaborators that leave a mark outside the actor's own
  fields (`Modify`, `SetRelativeLocation`, `SetLinkData`,
  `MarkComponentsRenderStateDirty`) are appended, in call order, to `Trace`.
* Base-class calls (`Super::...`) are engine code; every override takes the
  base-class behaviour as its first argument.
* The three enumerations are closed inductive types with exactly the declared
  enumerators, so the `default:` arm of each `switch`, which only a byte outside
  the enumeration reaches, has no counterpart; the test `CodUnits <= 0` that
  guards against the `default:` value `0` is kept.
-/

/-- The C++ `enum class ETraversalMagnitude : uint8` of `SmartLinkProxy.h`. -/
inductive ETraversalMagnitude where
  | Jump36
  | Jump48
  | Jump72
  | Jump96
  | Jump128
  | Jump160
  | Jump200
  | Jump256
  | Jump348
  | Across128
  | Across256
  deriving DecidableEq, Repr

/-- The C++ `enum class ESnapMode : uint8` of `SmartLinkProxy.h`. -/
inductive ESnapMode where
  | None
  | Up
  | Down
  | Across
  deriving DecidableEq, Repr

/-- The C++ `enum class EAcrossAxis : uint8` of `SmartLinkProxy.h`. -/
inductive EAcrossAxis where
  | Forward
  | Right
  | Left
  | Backward
  deriving DecidableEq, Repr

/-- The engine's `ENavLinkDirection::Type`. -/
inductive ENavLinkDirection where
  | BothWays
  | LeftToRight
  | RightToLeft
  deriving DecidableEq, Repr

/-- The engine's `FVector`, with exact rational components. -/
structure FVector where
  X : ℚ
  Y : ℚ
  Z : ℚ
  deriving DecidableEq, Repr

/-- Component-wise sum, the engine's `FVector::operator+` (and `+=`). -/
instance : Add FVector where
  add a b := ⟨a.X + b.X, a.Y + b.Y, a.Z + b.Z⟩

/-- The part of the engine's `UArrowComponent` the actor reads and writes. -/
structure UArrowComponent where
  RelativeLocation : FVector
  ArrowSize : ℚ
  deriving DecidableEq, Repr

/-- The engine's getter `USceneComponent::GetRelativeLocation`. -/
def UArrowComponent.GetRelativeLocation (self : UArrowComponent) : FVector :=
  self.RelativeLocation

/-- The engine's setter `USceneComponent::SetRelativeLocation`. -/
def UArrowComponent.SetRelativeLocation (self : UArrowComponent) (NewLocation : FVector) :
    UArrowComponent :=
  { self with RelativeLocation := NewLocation }

/-- The link data held by the engine's `UNavLinkCustomComponent`
(the navigation consumer). -/
structure UNavLinkCustomComponent where
  LinkRelativeStart : FVector
  LinkRelativeEnd : FVector
  LinkDirection : ENavLinkDirection
  bLinkEnabled : Bool
  deriving DecidableEq, Repr

/-- The engine's `UNavLinkCustomComponent::SetLinkData`: the component keeps
what it was last given. -/
def UNavLinkCustomComponent.SetLinkData (self : UNavLinkCustomComponent)
    (RelativeStart RelativeEnd : FVector) (Direction : ENavLinkDirection) :
    UNavLinkCustomComponent :=
  { self with
    LinkRelativeStart := RelativeStart
    LinkRelativeEnd := RelativeEnd
    LinkDirection := Direction }

/-- One entry of the legacy simple-link list (the engine's `FNavigationLink`). -/
structure FNavigationLink where
  Left : FVector
  Right : FVector
  Direction : ENavLinkDirection
  deriving DecidableEq, Repr

/-- Calls into engine collaborators, recorded in call order. -/
inductive Effect where
  | Modify
  | StartArrowModify
  | EndArrowModify
  | EndArrowSetRelativeLocation (NewLocation : FVector)
  | SetLinkData (RelativeStart RelativeEnd : FVector) (Direction : ENavLinkDirection)
  | MarkComponentsRenderStateDirty
  deriving DecidableEq, Repr

/-- The state inherited from the engine's `ANavLinkProxy`, with the record of
collaborator calls. -/
structure ANavLinkProxy where
  PointLinks : List FNavigationLink
  SmartLinkComp : Option UNavLinkCustomComponent
  bSmartLinkIsRelevant : Bool
  Trace : List Effect
  deriving DecidableEq, Repr

/-- The actor `ASmartLinkProxy` of `SmartLinkProxy.h`. -/
structure ASmartLinkProxy extends ANavLinkProxy where
  StartArrow : Option UArrowComponent
  EndArrow : Option UArrowComponent
  Magnitude : ETraversalMagnitude
  SnapMode : ESnapMode
  AcrossAxis : EAcrossAxis
  bAutoSnapOnChange : Bool
  UnitsToCm : ℚ
  AcrossExtraCm : ℚ
  LinkStartLocal : FVector
  LinkEndLocal : FVector
  deriving DecidableEq, Repr

/-- The engine's `FName`. -/
abbrev FName := String

/-- The engine's `NAME_None`. -/
def NAME_None : FName := "None"

/-- The engine's `FProperty`, reduced to its name. -/
structure FProperty where
  Name : FName
  deriving DecidableEq, Repr

/-- The engine's `FProperty::GetFName`. -/
def FProperty.GetFName (self : FProperty) : FName := self.Name

/-- The engine's `FPropertyChangedEvent`: `Property` may be null. -/
structure FPropertyChangedEvent where
  Property : Option FProperty
  deriving DecidableEq, Repr

/-- The name `PostEditChangeProperty` computes into its local `PropName`: the
name of the changed property, or `NAME_None` when the event carries none. -/
def FPropertyChangedEvent.PropName (self : FPropertyChangedEvent) : FName :=
  match self.Property with
  | some Property => Property.GetFName
  | none => NAME_None

namespace ASmartLinkProxy

/-- Append one collaborator call to the record. -/
def record (self : ASmartLinkProxy) (e : Effect) : ASmartLinkProxy :=
  { self with Trace := self.Trace ++ [e] }

/-- The engine's `ANavLinkProxy::GetSmartLinkComp`. -/
def GetSmartLinkComp (self : ASmartLinkProxy) : Option UNavLinkCustomComponent :=
  self.SmartLinkComp

/-- The engine's `ANavLinkProxy::SetSmartLinkEnabled`. -/
def SetSmartLinkEnabled (self : ASmartLinkProxy) (bEnabled : Bool) : ASmartLinkProxy :=
  { self with
    SmartLinkComp := self.SmartLinkComp.map fun Comp => { Comp with bLinkEnabled := bEnabled } }

/-- The constructor `ASmartLinkProxy::ASmartLinkProxy()`, with the default
member initialisers of `SmartLinkProxy.h`. `Super` is the object as the
base-class constructor leaves it; `NewArrow` is the arrow component that
`CreateDefaultSubobject<UArrowComponent>` hands out. -/
def ctor (Super : ANavLinkProxy) (NewArrow : UArrowComponent) : ASmartLinkProxy :=
  let self : ASmartLinkProxy :=
    { toANavLinkProxy := Super
      StartArrow := none
      EndArrow := none
      Magnitude := ETraversalMagnitude.Jump96
      SnapMode := ESnapMode.Up
      AcrossAxis := EAcrossAxis.Forward
      bAutoSnapOnChange := true
      UnitsToCm := 254 / 100
      AcrossExtraCm := 0
      LinkStartLocal := ⟨0, -50, 0⟩
      LinkEndLocal := ⟨0, 50, 0⟩ }
  let self := { self with StartArrow := some { NewArrow with ArrowSize := 1 } }
  let self := { self with EndArrow := some { NewArrow with ArrowSize := 1 } }
  -- Smart link defaults
  let self := self.SetSmartLinkEnabled true
  let self := { self with bSmartLinkIsRelevant := true }
  -- We NEVER want Simple Links
  { self with PointLinks := [] }

/-- The member `ASmartLinkProxy::GetCodUnitsFromMagnitude`. -/
def GetCodUnitsFromMagnitude (InMagnitude : ETraversalMagnitude) : ℚ :=
  match InMagnitude with
  | ETraversalMagnitude.Jump36 => 36
  | ETraversalMagnitude.Jump48 => 48
  | ETraversalMagnitude.Jump72 => 72
  | ETraversalMagnitude.Jump96 => 96
  | ETraversalMagnitude.Jump128 => 128
  | ETraversalMagnitude.Jump160 => 160
  | ETraversalMagnitude.Jump200 => 200
  | ETraversalMagnitude.Jump256 => 256
  | ETraversalMagnitude.Jump348 => 348
  | ETraversalMagnitude.Across128 => 128
  | ETraversalMagnitude.Across256 => 256

/-- The member `ASmartLinkProxy::GetAcrossOffsetRelative`
(relative space: +X forward, +Y right). -/
def GetAcrossOffsetRelative (self : ASmartLinkProxy) (DistanceCm : ℚ) : FVector :=
  match self.AcrossAxis with
  | EAcrossAxis.Forward => ⟨DistanceCm, 0, 0⟩
  | EAcrossAxis.Backward => ⟨-DistanceCm, 0, 0⟩
  | EAcrossAxis.Right => ⟨0, DistanceCm, 0⟩
  | EAcrossAxis.Left => ⟨0, -DistanceCm, 0⟩

/-- The member `ASmartLinkProxy::SyncSmartLinkToEndpoints`. -/
def SyncSmartLinkToEndpoints (self : ASmartLinkProxy) : ASmartLinkProxy :=
  -- Never allow Simple Links
  let self := { self with PointLinks := [] }
  match self.StartArrow, self.EndArrow with
  | some StartArrow, some EndArrow =>
    -- Use ARROWS as the authoritative endpoints (local space)
    let StartRel := StartArrow.GetRelativeLocation
    let EndRel := EndArrow.GetRelativeLocation
    -- Mirror into variables
    let self := { self with LinkStartLocal := StartRel, LinkEndLocal := EndRel }
    -- Drive ONLY the smart link component endpoints (local space)
    match self.GetSmartLinkComp with
    | some Comp =>
      { self with
        SmartLinkComp := some (Comp.SetLinkData StartRel EndRel ENavLinkDirection.BothWays)
        Trace := self.Trace ++ [Effect.SetLinkData StartRel EndRel ENavLinkDirection.BothWays] }
    | none => self
  | _, _ => self

/-- The member `ASmartLinkProxy::UpdateNavLinkNow`; `WITH_EDITOR` is the
build switch of the same name. -/
def UpdateNavLinkNow (WITH_EDITOR : Bool) (self : ASmartLinkProxy) : ASmartLinkProxy :=
  let self := self.SyncSmartLinkToEndpoints
  if WITH_EDITOR then self.record Effect.MarkComponentsRenderStateDirty else self

/-- The member `ASmartLinkProxy::SnapEndToMagnitude`. -/
def SnapEndToMagnitude (WITH_EDITOR : Bool) (self : ASmartLinkProxy) : ASmartLinkProxy :=
  let self := self.record Effect.Modify
  let self := if self.StartArrow.isSome then self.record Effect.StartArrowModify else self
  let self := if self.EndArrow.isSome then self.record Effect.EndArrowModify else self
  match self.StartArrow, self.EndArrow with
  | some StartArrow, some EndArrow =>
    if self.UnitsToCm ≤ 0 then self
    else
      let CodUnits := GetCodUnitsFromMagnitude self.Magnitude
      if CodUnits ≤ 0 then self
      else
        let BaseDistanceCm := CodUnits * self.UnitsToCm
        let StartRel := StartArrow.GetRelativeLocation
        let EndRel := StartRel
        let Snapped : Option FVector :=
          match self.SnapMode with
          | ESnapMode.None => none
          | ESnapMode.Up => some { EndRel with Z := EndRel.Z + BaseDistanceCm }
          | ESnapMode.Down => some { EndRel with Z := EndRel.Z - BaseDistanceCm }
          | ESnapMode.Across =>
            let AcrossDistance := BaseDistanceCm + self.AcrossExtraCm
            some (EndRel + self.GetAcrossOffsetRelative AcrossDistance)
        match Snapped with
        | none => self
        | some EndRel =>
          -- Move the arrow (arrows are authoritative)
          let self := { self with EndArrow := some (EndArrow.SetRelativeLocation EndRel) }
          let self := self.record (Effect.EndArrowSetRelativeLocation EndRel)
          -- Sync smart link + clear simple links
          self.UpdateNavLinkNow WITH_EDITOR
  | _, _ => self

/-- The override `ASmartLinkProxy::OnConstruction`; `Super` is
`Super::OnConstruction(Transform)`. -/
def OnConstruction (Super : ASmartLinkProxy → ASmartLinkProxy) (self : ASmartLinkProxy) :
    ASmartLinkProxy :=
  let self := Super self
  -- Ensure Simple Links stay dead even if a BP serialized them
  let self := { self with PointLinks := [] }
  -- Keep smart link endpoints synced to instance-editable endpoint widgets
  self.SyncSmartLinkToEndpoints

/-- The override `ASmartLinkProxy::BeginPlay`; `Super` is `Super::BeginPlay()`. -/
def BeginPlay (Super : ASmartLinkProxy → ASmartLinkProxy) (self : ASmartLinkProxy) :
    ASmartLinkProxy :=
  let self := Super self
  -- Runtime safety: ensure Simple Links cannot exist in-game
  let self := { self with PointLinks := [] }
  -- Re-sync endpoints in case anything changed between editor/runtime
  self.SyncSmartLinkToEndpoints

/-- The override `ASmartLinkProxy::PostEditChangeProperty` (editor builds only);
`Super` is `Super::PostEditChangeProperty`. -/
def PostEditChangeProperty
    (Super : FPropertyChangedEvent → ASmartLinkProxy → ASmartLinkProxy)
    (self : ASmartLinkProxy) (PropertyChangedEvent : FPropertyChangedEvent) :
    ASmartLinkProxy :=
  let self := Super PropertyChangedEvent self
  let PropName : FName :=
    match PropertyChangedEvent.Property with
    | some Property => Property.GetFName
    | none => NAME_None
  let bMagnitudeChanged := PropName == "Magnitude"
  let bSnapModeChanged := PropName == "SnapMode"
  let bAcrossAxisChanged := PropName == "AcrossAxis"
  let bUnitsChanged := PropName == "UnitsToCm"
  let bAcrossExtraChanged := PropName == "AcrossExtraCm"
  let bAutoSnapChanged := PropName == "bAutoSnapOnChange"
  let bStartLocalChanged := PropName == "LinkStartLocal"
  let bEndLocalChanged := PropName == "LinkEndLocal"
  -- Always keep Simple Links empty in editor
  let self := { self with PointLinks := [] }
  -- If you moved the endpoint widgets manually, just refresh link data
  if bStartLocalChanged || bEndLocalChanged then
    self.UpdateNavLinkNow true
  else if !self.bAutoSnapOnChange then
    -- Still refresh nav data when properties change
    if bMagnitudeChanged || bSnapModeChanged || bAcrossAxisChanged || bUnitsChanged
        || bAcrossExtraChanged || bAutoSnapChanged then
      self.UpdateNavLinkNow true
    else self
  else if bMagnitudeChanged || bSnapModeChanged || bAcrossAxisChanged || bUnitsChanged
      || bAcrossExtraChanged then
    self.SnapEndToMagnitude true
  else self

/-- The position of the start marker, when the marker exists. -/
def StartRel (self : ASmartLinkProxy) : Option FVector :=
  self.StartArrow.map UArrowComponent.GetRelativeLocation

/-- The position of the end marker, when the marker exists. -/
def EndRel (self : ASmartLinkProxy) : Option FVector :=
  self.EndArrow.map UArrowComponent.GetRelativeLocation

/-- An actor with the header's default configuration (Jump96, Up, Forward, 2.54),
its start marker at (0,-50,0), its end marker somewhere else, and one legacy
simple link left in `PointLinks`. -/
def Jump96Up : ASmartLinkProxy :=
  { PointLinks := [⟨⟨1, 2, 3⟩, ⟨4, 5, 6⟩, ENavLinkDirection.LeftToRight⟩]
    SmartLinkComp := some ⟨⟨0, 0, 0⟩, ⟨0, 0, 0⟩, ENavLinkDirection.LeftToRight, true⟩
    bSmartLinkIsRelevant := true
    Trace := []
    StartArrow := some ⟨⟨0, -50, 0⟩, 1⟩
    EndArrow := some ⟨⟨7, 50, 9⟩, 1⟩
    Magnitude := ETraversalMagnitude.Jump96
    SnapMode := ESnapMode.Up
    AcrossAxis := EAcrossAxis.Forward
    bAutoSnapOnChange := true
    UnitsToCm := 254 / 100
    AcrossExtraCm := 0
    LinkStartLocal := ⟨0, -50, 0⟩
    LinkEndLocal := ⟨0, 50, 0⟩ }

end ASmartLinkProxy

/-! ## Roomba: the unused-static-mesh sweep

A shallow embedding of `GetAllStaticMeshesInFolder`, `GetUsedStaticMeshesInLevel`
and `DeleteUnusedMeshes` of `Plugins/Roomba/Source/Roomba/Private/Roomba.cpp`.

* The asset registry's `GetAssets` and the editor world
  (`GEditor->GetEditorWorldContext().World()`) are engine state; both are
  arguments.
* A `TArray` is a list; a `TSet` is a list without repetition, filled by `TSetAdd`.
* What the sweep does to the outside (log lines, the progress dialog, the calls of
  `ObjectTools::DeleteAssets`) is the list of `Call`s it returns, in call order.
  Loading an asset is a field of the asset data; a deletion does not change what
  a later asset loads.
-/

namespace Roomba

/-- The engine's `UStaticMesh`, reduced to its name; two pointers are equal when
they name the same mesh. -/
structure UStaticMesh where
  Name : String
  deriving DecidableEq, Repr

/-- The engine's `UObject::GetName`. -/
def UStaticMesh.GetName (self : UStaticMesh) : String := self.Name

/-- A loaded asset: a static mesh or an object of another class. -/
inductive UObject where
  | StaticMesh (Mesh : UStaticMesh)
  | Other (Name : String)
  deriving DecidableEq, Repr

/-- The engine's `Cast<UStaticMesh>`: null for a null pointer and for an object
that is not a static mesh. -/
def CastUStaticMesh (Object : Option UObject) : Option UStaticMesh :=
  match Object with
  | some (UObject.StaticMesh Mesh) => some Mesh
  | _ => none

/-- The engine's `FAssetData`; `Asset` is what loading it yields (null when the
load fails). -/
structure FAssetData where
  PackagePath : String
  AssetName : String
  Asset : Option UObject
  deriving DecidableEq, Repr

/-- The engine's `FAssetData::GetAsset`. -/
def FAssetData.GetAsset (self : FAssetData) : Option UObject := self.Asset

/-- The engine's `FARFilter`, with the three fields the sweep sets. -/
structure FARFilter where
  PackagePaths : List String := []
  ClassPaths : List String := []
  bRecursivePaths : Bool := false
  deriving DecidableEq, Repr

/-- The class path `UStaticMesh::StaticClass()->GetClassPathName()`. -/
def UStaticMesh.ClassPathName : String := "/Script/Engine.StaticMesh"

/-- The engine's `UStaticMeshComponent`, reduced to the mesh assigned to it. -/
structure UStaticMeshComponent where
  StaticMesh : Option UStaticMesh
  deriving DecidableEq, Repr

/-- The engine's `UStaticMeshComponent::GetStaticMesh`. -/
def UStaticMeshComponent.GetStaticMesh (self : UStaticMeshComponent) : Option UStaticMesh :=
  self.StaticMesh

/-- The engine's `AActor`, reduced to what
`GetComponents<UStaticMeshComponent>` fills in. -/
structure AActor where
  StaticMeshComponents : List (Option UStaticMeshComponent)
  deriving DecidableEq, Repr

/-- The engine's `ULevel`: its array of actor pointers, nulls included. -/
structure ULevel where
  Actors : List (Option AActor)
  deriving DecidableEq, Repr

/-- The engine's `UWorld`, reduced to its current level. -/
structure UWorld where
  CurrentLevel : ULevel
  deriving DecidableEq, Repr

/-- The engine's `UWorld::GetCurrentLevel`. -/
def UWorld.GetCurrentLevel (self : UWorld) : ULevel := self.CurrentLevel

/-- The engine's `TSet::Add`: an element already in the set is not added again. -/
def TSetAdd (Set : List UStaticMesh) (Mesh : UStaticMesh) : List UStaticMesh :=
  if Mesh ∈ Set then Set else Set ++ [Mesh]

/-- What the sweep does to the outside, in call order. -/
inductive Call where
  | Log (Message : String)
  | MakeDialog
  | EnterProgressFrame
  | DeleteAssets (Mesh : UStaticMesh)
  deriving DecidableEq, Repr

/-- The function `GetAllStaticMeshesInFolder`; `GetAssets` is the asset
registry's answer to a filter, appended to `OutAssets`. -/
def GetAllStaticMeshesInFolder (GetAssets : FARFilter → List FAssetData)
    (FolderPath : String) (OutAssets : List FAssetData) : List FAssetData :=
  let Filter : FARFilter := {}
  let Filter := { Filter with PackagePaths := Filter.PackagePaths ++ [FolderPath] }
  let Filter := { Filter with ClassPaths := Filter.ClassPaths ++ [UStaticMesh.ClassPathName] }
  let Filter := { Filter with bRecursivePaths := true }
  OutAssets ++ GetAssets Filter

/-- The function `GetUsedStaticMeshesInLevel`; `World` is the editor world, null
when there is none. -/
def GetUsedStaticMeshesInLevel (World : Option UWorld) (OutUsedMeshes : List UStaticMesh) :
    List UStaticMesh :=
  match World with
  | none => OutUsedMeshes
  | some World =>
    World.GetCurrentLevel.Actors.foldl
      (fun OutUsedMeshes Actor =>
        match Actor with
        | none => OutUsedMeshes
        | some Actor =>
          Actor.StaticMeshComponents.foldl
            (fun OutUsedMeshes Component =>
              match Component with
              | some Component =>
                match Component.GetStaticMesh with
                | some Mesh => TSetAdd OutUsedMeshes Mesh
                | none => OutUsedMeshes
              | none => OutUsedMeshes)
            OutUsedMeshes)
      OutUsedMeshes

/-- The function `DeleteUnusedMeshes`: the calls it makes, in order. -/
def DeleteUnusedMeshes (GetAssets : FARFilter → List FAssetData) (World : Option UWorld)
    (TargetFolder : String) : List Call :=
  if TargetFolder.isEmpty then
    [Call.Log "No target folder provided for Roomba cleanup."]
  else
    let AllMeshes := GetAllStaticMeshesInFolder GetAssets TargetFolder []
    if AllMeshes.length = 0 then
      [Call.Log ("No static meshes found in folder: " ++ TargetFolder)]
    else
      let UsedMeshes := GetUsedStaticMeshesInLevel World []
      let Calls := [Call.MakeDialog]
      let Calls :=
        AllMeshes.foldl
          (fun Calls AssetData =>
            let Calls := Calls ++ [Call.EnterProgressFrame]
            match CastUStaticMesh AssetData.GetAsset with
            | some Mesh =>
              if Mesh ∉ UsedMeshes then
                Calls ++ [Call.Log ("Deleting Unused Mesh: " ++ Mesh.GetName),
                  Call.DeleteAssets Mesh]
              else Calls
            | none => Calls)
          Calls
      Calls ++ [Call.Log "Roomba cleaning completed."]

/-- An asset registry for examples: under `/Game/Props` it knows the meshes `A`
and `B`, an asset `C` that fails to load, and the mesh `D` in a sub-folder;
nothing elsewhere. -/
def ExampleGetAssets (Filter : FARFilter) : List FAssetData :=
  if Filter = ⟨["/Game/Props"], [UStaticMesh.ClassPathName], true⟩ then
    [⟨"/Game/Props", "A", some (UObject.StaticMesh ⟨"A"⟩)⟩,
     ⟨"/Game/Props", "B", some (UObject.StaticMesh ⟨"B"⟩)⟩,
     ⟨"/Game/Props", "C", none⟩,
     ⟨"/Game/Props/Sub", "D", some (UObject.StaticMesh ⟨"D"⟩)⟩]
  else []

/-- An editor world for examples: its current level holds a null actor and one
actor with mesh `B` assigned to two components, an empty component and a null
component. -/
def ExampleWorld : UWorld :=
  ⟨⟨[none, some ⟨[some ⟨some ⟨"B"⟩⟩, none, some ⟨none⟩, some ⟨some ⟨"B"⟩⟩]⟩]⟩⟩

end Roomba

/-! ## The snap in floating-point arithmetic

The same `GetCodUnitsFromMagnitude`, `GetAcrossOffsetRelative`,
`SyncSmartLinkToEndpoints`, `UpdateNavLinkNow` and `SnapEndToMagnitude`, with
the numbers of the program: `UnitsToCm`, `AcrossExtraCm`, `CodUnits`,
`BaseDistanceCm` and `AcrossDistance` are IEEE 754 binary32 (`float`), the
components of an `FVector` are binary64 (`double`), and a `float` that enters an
`FVector` is converted without change of value.

* A value is a finite rational, an infinity or NaN; the sign of a zero is not
  kept.
* Every arithmetic operation rounds its exact result once, to nearest, ties to
  even, with gradual underflow and overflow to infinity.
* A comparison with NaN is false.
-/

namespace IEEE

/-- A value of an IEEE 754 binary format. -/
inductive Value where
  | Finite (q : ℚ)
  | Infinite (Negative : Bool)
  | NaN
  deriving DecidableEq, Repr

/-- An IEEE 754 binary format: bits of significand, least and greatest exponent
of a normal number. -/
structure Format where
  Precision : ℕ
  Emin : ℤ
  Emax : ℤ
  deriving DecidableEq, Repr

/-- The C++ type `float`. -/
def binary32 : Format := ⟨24, -126, 127⟩

/-- The C++ type `double`. -/
def binary64 : Format := ⟨53, -1022, 1023⟩

/-- The nearest integer, a tie going to the even one. -/
def roundTiesToEven (q : ℚ) : ℤ :=
  if q - ⌊q⌋ < 1 / 2 then ⌊q⌋
  else if 1 / 2 < q - ⌊q⌋ then ⌊q⌋ + 1
  else if ⌊q⌋ % 2 = 0 then ⌊q⌋
  else ⌊q⌋ + 1

/-- The distance between neighbouring numbers of the format around `q`. -/
def Format.ulp (F : Format) (q : ℚ) : ℚ :=
  2 ^ (max (Int.log 2 |q|) F.Emin - (F.Precision - 1))

/-- The number of the format nearest to `q`, ties to even; an infinity when that
number is beyond the greatest finite one. -/
def Format.round (F : Format) (q : ℚ) : Value :=
  if q = 0 then Value.Finite 0
  else if 2 ^ (F.Emax + 1) ≤ |(roundTiesToEven (q / F.ulp q) : ℚ) * F.ulp q| then
    Value.Infinite (decide (q < 0))
  else Value.Finite (roundTiesToEven (q / F.ulp q) * F.ulp q)

/-- Whether a value is one of the format: an infinity, NaN, or a finite number
that rounding leaves alone. -/
def Format.IsValue (F : Format) (a : Value) : Bool :=
  match a with
  | Value.Finite q => F.round q == Value.Finite q
  | _ => true

/-- Unary minus. -/
def Value.neg (a : Value) : Value :=
  match a with
  | Value.Finite q => Value.Finite (-q)
  | Value.Infinite Negative => Value.Infinite (!Negative)
  | Value.NaN => Value.NaN

/-- The comparison `a <= b`. -/
def Value.le (a b : Value) : Bool :=
  match a, b with
  | Value.NaN, _ => false
  | _, Value.NaN => false
  | Value.Finite x, Value.Finite y => decide (x ≤ y)
  | Value.Finite _, Value.Infinite Negative => !Negative
  | Value.Infinite Negative, Value.Finite _ => Negative
  | Value.Infinite NegativeA, Value.Infinite NegativeB => NegativeA || !NegativeB

/-- The comparison `a < b`. -/
def Value.lt (a b : Value) : Bool :=
  match a, b with
  | Value.NaN, _ => false
  | _, Value.NaN => false
  | Value.Finite x, Value.Finite y => decide (x < y)
  | Value.Finite _, Value.Infinite Negative => !Negative
  | Value.Infinite Negative, Value.Finite _ => Negative
  | Value.Infinite NegativeA, Value.Infinite NegativeB => NegativeA && !NegativeB

/-- The sum `a + b` in the format. -/
def Format.add (F : Format) (a b : Value) : Value :=
  match a, b with
  | Value.NaN, _ => Value.NaN
  | _, Value.NaN => Value.NaN
  | Value.Finite x, Value.Finite y => F.round (x + y)
  | Value.Finite _, Value.Infinite Negative => Value.Infinite Negative
  | Value.Infinite Negative, Value.Finite _ => Value.Infinite Negative
  | Value.Infinite NegativeA, Value.Infinite NegativeB =>
    if NegativeA = NegativeB then Value.Infinite NegativeA else Value.NaN

/-- The difference `a - b` in the format. -/
def Format.sub (F : Format) (a b : Value) : Value :=
  F.add a b.neg

/-- The product `a * b` in the format. -/
def Format.mul (F : Format) (a b : Value) : Value :=
  match a, b with
  | Value.NaN, _ => Value.NaN
  | _, Value.NaN => Value.NaN
  | Value.Finite x, Value.Finite y => F.round (x * y)
  | Value.Finite x, Value.Infinite Negative =>
    if x = 0 then Value.NaN else Value.Infinite (Negative != decide (x < 0))
  | Value.Infinite Negative, Value.Finite y =>
    if y = 0 then Value.NaN else Value.Infinite (Negative != decide (y < 0))
  | Value.Infinite NegativeA, Value.Infinite NegativeB =>
    Value.Infinite (NegativeA != NegativeB)

/-- The engine's `FVector`, with `double` components. -/
structure FVector where
  X : Value
  Y : Value
  Z : Value
  deriving DecidableEq, Repr

/-- Component-wise sum in `double`, the engine's `FVector::operator+` (and `+=`). -/
instance : Add FVector where
  add a b := ⟨binary64.add a.X b.X, binary64.add a.Y b.Y, binary64.add a.Z b.Z⟩

/-- The part of the engine's `UArrowComponent` the actor reads and writes. -/
structure UArrowComponent where
  RelativeLocation : FVector
  ArrowSize : Value
  deriving DecidableEq, Repr

/-- The engine's getter `USceneComponent::GetRelativeLocation`. -/
def UArrowComponent.GetRelativeLocation (self : UArrowComponent) : FVector :=
  self.RelativeLocation

/-- The engine's setter `USceneComponent::SetRelativeLocation`. -/
def UArrowComponent.SetRelativeLocation (self : UArrowComponent) (NewLocation : FVector) :
    UArrowComponent :=
  { self with RelativeLocation := NewLocation }

/-- The link data held by the engine's `UNavLinkCustomComponent`. -/
structure UNavLinkCustomComponent where
  LinkRelativeStart : FVector
  LinkRelativeEnd : FVector
  LinkDirection : ENavLinkDirection
  bLinkEnabled : Bool
  deriving DecidableEq, Repr

/-- The engine's `UNavLinkCustomComponent::SetLinkData`. -/
def UNavLinkCustomComponent.SetLinkData (self : UNavLinkCustomComponent)
    (RelativeStart RelativeEnd : FVector) (Direction : ENavLinkDirection) :
    UNavLinkCustomComponent :=
  { self with
    LinkRelativeStart := RelativeStart
    LinkRelativeEnd := RelativeEnd
    LinkDirection := Direction }

/-- One entry of the legacy simple-link list (the engine's `FNavigationLink`). -/
structure FNavigationLink where
  Left : FVector
  Right : FVector
  Direction : ENavLinkDirection
  deriving DecidableEq, Repr

/-- Calls into engine collaborators, recorded in call order. -/
inductive Effect where
  | Modify
  | StartArrowModify
  | EndArrowModify
  | EndArrowSetRelativeLocation (NewLocation : FVector)
  | SetLinkData (RelativeStart RelativeEnd : FVector) (Direction : ENavLinkDirection)
  | MarkComponentsRenderStateDirty
  deriving DecidableEq, Repr

/-- The state inherited from the engine's `ANavLinkProxy`, with the record of
collaborator calls. -/
structure ANavLinkProxy where
  PointLinks : List FNavigationLink
  SmartLinkComp : Option UNavLinkCustomComponent
  bSmartLinkIsRelevant : Bool
  Trace : List Effect
  deriving DecidableEq, Repr

/-- The actor `ASmartLinkProxy` of `SmartLinkProxy.h`, its `float` fields
binary32 values and its `FVector` fields vectors of binary64 values. -/
structure ASmartLinkProxy extends ANavLinkProxy where
  StartArrow : Option UArrowComponent
  EndArrow : Option UArrowComponent
  Magnitude : ETraversalMagnitude
  SnapMode : ESnapMode
  AcrossAxis : EAcrossAxis
  bAutoSnapOnChange : Bool
  UnitsToCm : Value
  AcrossExtraCm : Value
  LinkStartLocal : FVector
  LinkEndLocal : FVector
  deriving DecidableEq, Repr

namespace ASmartLinkProxy

/-- Append one collaborator call to the record. -/
def record (self : ASmartLinkProxy) (e : Effect) : ASmartLinkProxy :=
  { self with Trace := self.Trace ++ [e] }

/-- The engine's `ANavLinkProxy::GetSmartLinkComp`. -/
def GetSmartLinkComp (self : ASmartLinkProxy) : Option UNavLinkCustomComponent :=
  self.SmartLinkComp

/-- The member `ASmartLinkProxy::GetCodUnitsFromMagnitude`; each literal is a
`float`. -/
def GetCodUnitsFromMagnitude (InMagnitude : ETraversalMagnitude) : Value :=
  match InMagnitude with
  | ETraversalMagnitude.Jump36 => Value.Finite 36
  | ETraversalMagnitude.Jump48 => Value.Finite 48
  | ETraversalMagnitude.Jump72 => Value.Finite 72
  | ETraversalMagnitude.Jump96 => Value.Finite 96
  | ETraversalMagnitude.Jump128 => Value.Finite 128
  | ETraversalMagnitude.Jump160 => Value.Finite 160
  | ETraversalMagnitude.Jump200 => Value.Finite 200
  | ETraversalMagnitude.Jump256 => Value.Finite 256
  | ETraversalMagnitude.Jump348 => Value.Finite 348
  | ETraversalMagnitude.Across128 => Value.Finite 128
  | ETraversalMagnitude.Across256 => Value.Finite 256

/-- The member `ASmartLinkProxy::GetAcrossOffsetRelative`
(relative space: +X forward, +Y right). -/
def GetAcrossOffsetRelative (self : ASmartLinkProxy) (DistanceCm : Value) : FVector :=
  match self.AcrossAxis with
  | EAcrossAxis.Forward => ⟨DistanceCm, Value.Finite 0, Value.Finite 0⟩
  | EAcrossAxis.Backward => ⟨DistanceCm.neg, Value.Finite 0, Value.Finite 0⟩
  | EAcrossAxis.Right => ⟨Value.Finite 0, DistanceCm, Value.Finite 0⟩
  | EAcrossAxis.Left => ⟨Value.Finite 0, DistanceCm.neg, Value.Finite 0⟩

/-- The member `ASmartLinkProxy::SyncSmartLinkToEndpoints`. -/
def SyncSmartLinkToEndpoints (self : ASmartLinkProxy) : ASmartLinkProxy :=
  -- Never allow Simple Links
  let self := { self with PointLinks := [] }
  match self.StartArrow, self.EndArrow with
  | some StartArrow, some EndArrow =>
    -- Use ARROWS as the authoritative endpoints (local space)
    let StartRel := StartArrow.GetRelativeLocation
    let EndRel := EndArrow.GetRelativeLocation
    -- Mirror into variables
    let self := { self with LinkStartLocal := StartRel, LinkEndLocal := EndRel }
    -- Drive ONLY the smart link component endpoints (local space)
    match self.GetSmartLinkComp with
    | some Comp =>
      { self with
        SmartLinkComp := some (Comp.SetLinkData StartRel EndRel ENavLinkDirection.BothWays)
        Trace := self.Trace ++ [Effect.SetLinkData StartRel EndRel ENavLinkDirection.BothWays] }
    | none => self
  | _, _ => self

/-- The member `ASmartLinkProxy::UpdateNavLinkNow`; `WITH_EDITOR` is the
build switch of the same name. -/
def UpdateNavLinkNow (WITH_EDITOR : Bool) (self : ASmartLinkProxy) : ASmartLinkProxy :=
  let self := self.SyncSmartLinkToEndpoints
  if WITH_EDITOR then self.record Effect.MarkComponentsRenderStateDirty else self

/-- The member `ASmartLinkProxy::SnapEndToMagnitude`. -/
def SnapEndToMagnitude (WITH_EDITOR : Bool) (self : ASmartLinkProxy) : ASmartLinkProxy :=
  let self := self.record Effect.Modify
  let self := if self.StartArrow.isSome then self.record Effect.StartArrowModify else self
  let self := if self.EndArrow.isSome then self.record Effect.EndArrowModify else self
  match self.StartArrow, self.EndArrow with
  | some StartArrow, some EndArrow =>
    if self.UnitsToCm.le (Value.Finite 0) then self
    else
      let CodUnits := GetCodUnitsFromMagnitude self.Magnitude
      if CodUnits.le (Value.Finite 0) then self
      else
        let BaseDistanceCm := binary32.mul CodUnits self.UnitsToCm
        let StartRel := StartArrow.GetRelativeLocation
        let EndRel := StartRel
        let Snapped : Option FVector :=
          match self.SnapMode with
          | ESnapMode.None => none
          | ESnapMode.Up => some { EndRel with Z := binary64.add EndRel.Z BaseDistanceCm }
          | ESnapMode.Down => some { EndRel with Z := binary64.sub EndRel.Z BaseDistanceCm }
          | ESnapMode.Across =>
            let AcrossDistance := binary32.add BaseDistanceCm self.AcrossExtraCm
            some (EndRel + self.GetAcrossOffsetRelative AcrossDistance)
        match Snapped with
        | none => self
        | some EndRel =>
          -- Move the arrow (arrows are authoritative)
          let self := { self with EndArrow := some (EndArrow.SetRelativeLocation EndRel) }
          let self := self.record (Effect.EndArrowSetRelativeLocation EndRel)
          -- Sync smart link + clear simple links
          self.UpdateNavLinkNow WITH_EDITOR
  | _, _ => self

/-- The position of the start marker, when the marker exists. -/
def StartRel (self : ASmartLinkProxy) : Option FVector :=
  self.StartArrow.map UArrowComponent.GetRelativeLocation

/-- The position of the end marker, when the marker exists. -/
def EndRel (self : ASmartLinkProxy) : Option FVector :=
  self.EndArrow.map UArrowComponent.GetRelativeLocation

/-- An actor with the header's default configuration: Jump96, Up, Forward,
`UnitsToCm = 2.54f` (the `float` nearest to 2.54, 2663383 / 2^20), start marker at
(0,-50,0), end marker at (7,50,9). -/
def Jump96Up : ASmartLinkProxy :=
  { PointLinks := []
    SmartLinkComp :=
      some ⟨⟨Value.Finite 0, Value.Finite 0, Value.Finite 0⟩,
        ⟨Value.Finite 0, Value.Finite 0, Value.Finite 0⟩, ENavLinkDirection.LeftToRight, true⟩
    bSmartLinkIsRelevant := true
    Trace := []
    StartArrow := some ⟨⟨Value.Finite 0, Value.Finite (-50), Value.Finite 0⟩, Value.Finite 1⟩
    EndArrow := some ⟨⟨Value.Finite 7, Value.Finite 50, Value.Finite 9⟩, Value.Finite 1⟩
    Magnitude := ETraversalMagnitude.Jump96
    SnapMode := ESnapMode.Up
    AcrossAxis := EAcrossAxis.Forward
    bAutoSnapOnChange := true
    UnitsToCm := Value.Finite (2663383 / 2 ^ 20)
    AcrossExtraCm := Value.Finite 0
    LinkStartLocal := ⟨Value.Finite 0, Value.Finite (-50), Value.Finite 0⟩
    LinkEndLocal := ⟨Value.Finite 0, Value.Finite 50, Value.Finite 0⟩ }

/-- The same actor placed high up, its start marker at (0,-50,2^60), with
`UnitsToCm = 1`. -/
def HighUp : ASmartLinkProxy :=
  { Jump96Up with
    StartArrow :=
      some ⟨⟨Value.Finite 0, Value.Finite (-50), Value.Finite (2 ^ 60)⟩, Value.Finite 1⟩
    UnitsToCm := Value.Finite 1 }

end ASmartLinkProxy

end IEEE

/-! ## Theorems -/

namespace ASmartLinkProxy

/-- Every entry of the magnitude table is strictly positive. -/
theorem GetCodUnitsFromMagnitude_pos (InMagnitude : ETraversalMagnitude) :
    0 < GetCodUnitsFromMagnitude InMagnitude := by
  cases InMagnitude <;> norm_num [GetCodUnitsFromMagnitude]

/-- The state of a snap that passes every guard: the three modification marks,
the end marker moved to the position its snap mode gives, then
`UpdateNavLinkNow`. -/
theorem SnapEndToMagnitude_of_ready (WITH_EDITOR : Bool) (self : ASmartLinkProxy)
    (Start End : UArrowComponent)
    (hStart : self.StartArrow = some Start) (hEnd : self.EndArrow = some End)
    (hUnits : 0 < self.UnitsToCm) (hMode : self.SnapMode ≠ ESnapMode.None) :
    self.SnapEndToMagnitude WITH_EDITOR
      = UpdateNavLinkNow WITH_EDITOR
          { self with
            EndArrow := some
              { End with
                RelativeLocation :=
                  match self.SnapMode with
                  | ESnapMode.None => Start.RelativeLocation
                  | ESnapMode.Up =>
                    { Start.RelativeLocation with
                      Z := Start.RelativeLocation.Z
                        + GetCodUnitsFromMagnitude self.Magnitude * self.UnitsToCm }
                  | ESnapMode.Down =>
                    { Start.RelativeLocation with
                      Z := Start.RelativeLocation.Z
                        - GetCodUnitsFromMagnitude self.Magnitude * self.UnitsToCm }
                  | ESnapMode.Across =>
                    Start.RelativeLocation + self.GetAcrossOffsetRelative
                      (GetCodUnitsFromMagnitude self.Magnitude * self.UnitsToCm
                        + self.AcrossExtraCm) }
            Trace := self.Trace ++
              [Effect.Modify, Effect.StartArrowModify, Effect.EndArrowModify,
               Effect.EndArrowSetRelativeLocation
                 (match self.SnapMode with
                  | ESnapMode.None => Start.RelativeLocation
                  | ESnapMode.Up =>
                    { Start.RelativeLocation with
                      Z := Start.RelativeLocation.Z
                        + GetCodUnitsFromMagnitude self.Magnitude * self.UnitsToCm }
                  | ESnapMode.Down =>
                    { Start.RelativeLocation with
                      Z := Start.RelativeLocation.Z
                        - GetCodUnitsFromMagnitude self.Magnitude * self.UnitsToCm }
                  | ESnapMode.Across =>
                    Start.RelativeLocation + self.GetAcrossOffsetRelative
                      (GetCodUnitsFromMagnitude self.Magnitude * self.UnitsToCm
                        + self.AcrossExtraCm))] } := by
  have hpos := GetCodUnitsFromMagnitude_pos self.Magnitude
  obtain ⟨⟨pl, comp, rel, tr⟩, sa, ea, mag, mode, axis, auto, u, extra, ls, le⟩ := self
  simp only at hStart hEnd hUnits hMode hpos
  subst hStart hEnd
  cases mode <;>
    simp_all [SnapEndToMagnitude, record, not_le.mpr hUnits, not_le.mpr hpos,
      UArrowComponent.GetRelativeLocation, UArrowComponent.SetRelativeLocation,
      GetAcrossOffsetRelative]

/-- The state of a snap that stops at a guard: only the modification marks are
added to the record. -/
theorem SnapEndToMagnitude_of_abort (WITH_EDITOR : Bool) (self : ASmartLinkProxy)
    (h : self.UnitsToCm ≤ 0 ∨ self.SnapMode = ESnapMode.None
      ∨ self.StartArrow = none ∨ self.EndArrow = none) :
    self.SnapEndToMagnitude WITH_EDITOR
      = { self with
          Trace := self.Trace ++ [Effect.Modify]
            ++ (if self.StartArrow.isSome then [Effect.StartArrowModify] else [])
            ++ (if self.EndArrow.isSome then [Effect.EndArrowModify] else []) } := by
  have hpos := GetCodUnitsFromMagnitude_pos self.Magnitude
  obtain ⟨⟨pl, comp, rel, tr⟩, sa, ea, mag, mode, axis, auto, u, extra, ls, le⟩ := self
  simp only at h hpos
  by_cases hu : u ≤ 0 <;> cases sa <;> cases ea <;> cases mode <;>
    simp_all [SnapEndToMagnitude, record, not_le.mpr hpos]

/-- The state of a sync that finds both markers. -/
theorem SyncSmartLinkToEndpoints_of_markers (self : ASmartLinkProxy)
    (Start End : UArrowComponent)
    (hStart : self.StartArrow = some Start) (hEnd : self.EndArrow = some End) :
    self.SyncSmartLinkToEndpoints
      = { self with
          PointLinks := []
          LinkStartLocal := Start.RelativeLocation
          LinkEndLocal := End.RelativeLocation
          SmartLinkComp := self.SmartLinkComp.map fun Comp =>
            Comp.SetLinkData Start.RelativeLocation End.RelativeLocation
              ENavLinkDirection.BothWays
          Trace := self.Trace ++
            (if self.SmartLinkComp.isSome then
              [Effect.SetLinkData Start.RelativeLocation End.RelativeLocation
                ENavLinkDirection.BothWays]
            else []) } := by
  obtain ⟨⟨pl, comp, rel, tr⟩, sa, ea, mag, mode, axis, auto, u, extra, ls, le⟩ := self
  simp only at hStart hEnd
  subst hStart hEnd
  cases comp <;>
    simp [SyncSmartLinkToEndpoints, GetSmartLinkComp, UArrowComponent.GetRelativeLocation]

/-- The state of a sync that misses a marker: only the legacy list is emptied. -/
theorem SyncSmartLinkToEndpoints_of_missing (self : ASmartLinkProxy)
    (h : self.StartArrow = none ∨ self.EndArrow = none) :
    self.SyncSmartLinkToEndpoints = { self with PointLinks := [] } := by
  obtain ⟨⟨pl, comp, rel, tr⟩, sa, ea, mag, mode, axis, auto, u, extra, ls, le⟩ := self
  cases sa <;> cases ea <;> simp_all [SyncSmartLinkToEndpoints]

/-- A sync never touches the markers or the configuration, and always empties
the legacy list. -/
theorem SyncSmartLinkToEndpoints_frame (self : ASmartLinkProxy) :
    self.SyncSmartLinkToEndpoints.StartArrow = self.StartArrow
      ∧ self.SyncSmartLinkToEndpoints.EndArrow = self.EndArrow
      ∧ self.SyncSmartLinkToEndpoints.Magnitude = self.Magnitude
      ∧ self.SyncSmartLinkToEndpoints.SnapMode = self.SnapMode
      ∧ self.SyncSmartLinkToEndpoints.AcrossAxis = self.AcrossAxis
      ∧ self.SyncSmartLinkToEndpoints.bAutoSnapOnChange = self.bAutoSnapOnChange
      ∧ self.SyncSmartLinkToEndpoints.UnitsToCm = self.UnitsToCm
      ∧ self.SyncSmartLinkToEndpoints.AcrossExtraCm = self.AcrossExtraCm
      ∧ self.SyncSmartLinkToEndpoints.PointLinks = [] := by
  obtain ⟨⟨pl, comp, rel, tr⟩, sa, ea, mag, mode, axis, auto, u, extra, ls, le⟩ := self
  cases sa <;> cases ea <;> cases comp <;>
    simp [SyncSmartLinkToEndpoints, GetSmartLinkComp]

/-- The same frame for `UpdateNavLinkNow`. -/
theorem UpdateNavLinkNow_frame (WITH_EDITOR : Bool) (self : ASmartLinkProxy) :
    (self.UpdateNavLinkNow WITH_EDITOR).StartArrow = self.StartArrow
      ∧ (self.UpdateNavLinkNow WITH_EDITOR).EndArrow = self.EndArrow
      ∧ (self.UpdateNavLinkNow WITH_EDITOR).Magnitude = self.Magnitude
      ∧ (self.UpdateNavLinkNow WITH_EDITOR).SnapMode = self.SnapMode
      ∧ (self.UpdateNavLinkNow WITH_EDITOR).AcrossAxis = self.AcrossAxis
      ∧ (self.UpdateNavLinkNow WITH_EDITOR).bAutoSnapOnChange = self.bAutoSnapOnChange
      ∧ (self.UpdateNavLinkNow WITH_EDITOR).UnitsToCm = self.UnitsToCm
      ∧ (self.UpdateNavLinkNow WITH_EDITOR).AcrossExtraCm = self.AcrossExtraCm
      ∧ (self.UpdateNavLinkNow WITH_EDITOR).PointLinks = [] := by
  have h := SyncSmartLinkToEndpoints_frame self
  cases WITH_EDITOR <;> simpa [UpdateNavLinkNow, record] using h

/-- C1: with both markers present, `UnitsToCm > 0` and `SnapMode = Up`, after
`SnapEndToMagnitude` the end marker has the start marker's X and Y, and its Z is
the start marker's Z plus `GetCodUnitsFromMagnitude Magnitude * UnitsToCm`; the
start marker has not moved. -/
theorem snap_up_end (WITH_EDITOR : Bool) (self : ASmartLinkProxy)
    (Start End : UArrowComponent)
    (hStart : self.StartArrow = some Start) (hEnd : self.EndArrow = some End)
    (hUnits : 0 < self.UnitsToCm) (hMode : self.SnapMode = ESnapMode.Up) :
    (self.SnapEndToMagnitude WITH_EDITOR).EndRel
        = some ⟨Start.RelativeLocation.X, Start.RelativeLocation.Y,
            Start.RelativeLocation.Z
              + GetCodUnitsFromMagnitude self.Magnitude * self.UnitsToCm⟩
      ∧ (self.SnapEndToMagnitude WITH_EDITOR).StartRel = some Start.RelativeLocation := by
  rw [SnapEndToMagnitude_of_ready WITH_EDITOR self Start End hStart hEnd hUnits
    (by simp [hMode])]
  simp [EndRel, StartRel, (UpdateNavLinkNow_frame WITH_EDITOR _).1,
    (UpdateNavLinkNow_frame WITH_EDITOR _).2.1, hStart, hMode,
    UArrowComponent.GetRelativeLocation]

/-- C1 at a concrete actor: start marker (0,-50,0), Jump96, 2.54 cm per unit. -/
theorem snap_up_end_witness :
    (Jump96Up.SnapEndToMagnitude true).EndRel = some ⟨0, -50, 24384 / 100⟩
      ∧ (Jump96Up.SnapEndToMagnitude true).StartRel = some ⟨0, -50, 0⟩ := by
  have h := snap_up_end true Jump96Up ⟨⟨0, -50, 0⟩, 1⟩ ⟨⟨7, 50, 9⟩, 1⟩ rfl rfl
    (by norm_num [Jump96Up]) rfl
  norm_num [Jump96Up, GetCodUnitsFromMagnitude] at h
  norm_num [Jump96Up]
  exact h

/-- C4: `SnapEndToMagnitude` is idempotent. For every state, a second call made
right after the first leaves the actor exactly as the first call left it, the
record of collaborator calls apart: same end marker, same start marker, same
`LinkStartLocal` / `LinkEndLocal`, same link data in the consumer, same
configuration. On the actor with start marker (0,-50,0), Jump96, 2.54 cm per unit
and `Up`, the end marker is at Z = 243.84 after one call and after two. -/
theorem snap_idempotent :
    (∀ (WITH_EDITOR : Bool) (self : ASmartLinkProxy),
        { (self.SnapEndToMagnitude WITH_EDITOR).SnapEndToMagnitude WITH_EDITOR with
            Trace := [] }
          = { self.SnapEndToMagnitude WITH_EDITOR with Trace := [] })
      ∧ (Jump96Up.SnapEndToMagnitude true).EndRel = some ⟨0, -50, 24384 / 100⟩
      ∧ ((Jump96Up.SnapEndToMagnitude true).SnapEndToMagnitude true).EndRel
          = some ⟨0, -50, 24384 / 100⟩ := by
  refine ⟨?_, ?_, ?_⟩
  · intro WITH_EDITOR self
    have hpos := GetCodUnitsFromMagnitude_pos self.Magnitude
    obtain ⟨⟨pl, comp, rel, tr⟩, sa, ea, mag, mode, axis, auto, u, extra, ls, le⟩ := self
    simp only at hpos
    by_cases hu : u ≤ 0 <;> cases sa <;> cases ea <;> cases mode <;> cases comp <;>
      cases WITH_EDITOR <;>
      simp [SnapEndToMagnitude, UpdateNavLinkNow, SyncSmartLinkToEndpoints, record,
        GetSmartLinkComp, UArrowComponent.GetRelativeLocation,
        UArrowComponent.SetRelativeLocation, UNavLinkCustomComponent.SetLinkData,
        GetAcrossOffsetRelative, hu, not_le.mpr hpos]
  · norm_num [Jump96Up, SnapEndToMagnitude, UpdateNavLinkNow, SyncSmartLinkToEndpoints,
      record, GetSmartLinkComp, UArrowComponent.GetRelativeLocation,
      UArrowComponent.SetRelativeLocation, GetCodUnitsFromMagnitude, EndRel]
  · norm_num [Jump96Up, SnapEndToMagnitude, UpdateNavLinkNow, SyncSmartLinkToEndpoints,
      record, GetSmartLinkComp, UArrowComponent.GetRelativeLocation,
      UArrowComponent.SetRelativeLocation, GetCodUnitsFromMagnitude, EndRel]

/-- C5: the end marker a successful snap produces does not depend on where the
end marker was. Two states with the same start marker and the same `Magnitude`,
`SnapMode`, `AcrossAxis`, `UnitsToCm` and `AcrossExtraCm` (whatever their end
markers, `LinkStartLocal` and `LinkEndLocal`), with `UnitsToCm > 0` and a snap
mode other than `None`, end with their end markers at one and the same position. -/
theorem snap_end_independent_of_old_end (WITH_EDITOR : Bool) (a b : ASmartLinkProxy)
    (Start EndA EndB : UArrowComponent)
    (hStartA : a.StartArrow = some Start) (hStartB : b.StartArrow = some Start)
    (hEndA : a.EndArrow = some EndA) (hEndB : b.EndArrow = some EndB)
    (hMagnitude : a.Magnitude = b.Magnitude) (hSnapMode : a.SnapMode = b.SnapMode)
    (hAcrossAxis : a.AcrossAxis = b.AcrossAxis) (hUnitsToCm : a.UnitsToCm = b.UnitsToCm)
    (hAcrossExtraCm : a.AcrossExtraCm = b.AcrossExtraCm)
    (hUnits : 0 < a.UnitsToCm) (hMode : a.SnapMode ≠ ESnapMode.None) :
    ∃ NewEnd : FVector,
      (a.SnapEndToMagnitude WITH_EDITOR).EndRel = some NewEnd
        ∧ (b.SnapEndToMagnitude WITH_EDITOR).EndRel = some NewEnd := by
  rw [SnapEndToMagnitude_of_ready WITH_EDITOR a Start EndA hStartA hEndA hUnits hMode,
    SnapEndToMagnitude_of_ready WITH_EDITOR b Start EndB hStartB hEndB
      (hUnitsToCm ▸ hUnits) (hSnapMode ▸ hMode)]
  simp only [EndRel, (UpdateNavLinkNow_frame WITH_EDITOR _).2.1, Option.map_some',
    UArrowComponent.GetRelativeLocation, GetAcrossOffsetRelative, hMagnitude, hSnapMode,
    hAcrossAxis, hUnitsToCm, hAcrossExtraCm]
  exact ⟨_, rfl, rfl⟩

/-- C5 at two concrete actors in `Across` mode that differ in the end marker and
in `LinkEndLocal`: both end markers land at (243.84, -50, 0). -/
theorem snap_end_independent_of_old_end_witness :
    ∃ NewEnd : FVector,
      ({ Jump96Up with SnapMode := ESnapMode.Across }.SnapEndToMagnitude true).EndRel
          = some NewEnd
        ∧ ({ Jump96Up with
              SnapMode := ESnapMode.Across
              EndArrow := some ⟨⟨100, 200, 300⟩, 1⟩
              LinkEndLocal := ⟨9, 9, 9⟩ }.SnapEndToMagnitude true).EndRel = some NewEnd :=
  snap_end_independent_of_old_end true
    { Jump96Up with SnapMode := ESnapMode.Across }
    { Jump96Up with
      SnapMode := ESnapMode.Across
      EndArrow := some ⟨⟨100, 200, 300⟩, 1⟩
      LinkEndLocal := ⟨9, 9, 9⟩ }
    ⟨⟨0, -50, 0⟩, 1⟩ ⟨⟨7, 50, 9⟩, 1⟩ ⟨⟨100, 200, 300⟩, 1⟩
    rfl rfl rfl rfl rfl rfl rfl rfl rfl (by norm_num [Jump96Up]) (by simp)

/-- C6: when `UnitsToCm <= 0`, or `SnapMode = None`, or the start or the end
marker is missing, `SnapEndToMagnitude` changes no field of the actor: both
markers, `LinkStartLocal`, `LinkEndLocal`, `PointLinks`, the consumer's link data
and every configuration field are what they were. The record of collaborator
calls gains the modification marks and nothing else, so no `SetLinkData` call
reaches the navigation consumer. -/
theorem snap_abort_unchanged (WITH_EDITOR : Bool) (self : ASmartLinkProxy)
    (h : self.UnitsToCm ≤ 0 ∨ self.SnapMode = ESnapMode.None
      ∨ self.StartArrow = none ∨ self.EndArrow = none) :
    { self.SnapEndToMagnitude WITH_EDITOR with Trace := self.Trace } = self
      ∧ (self.SnapEndToMagnitude WITH_EDITOR).EndArrow = self.EndArrow
      ∧ (self.SnapEndToMagnitude WITH_EDITOR).StartArrow = self.StartArrow
      ∧ (self.SnapEndToMagnitude WITH_EDITOR).LinkStartLocal = self.LinkStartLocal
      ∧ (self.SnapEndToMagnitude WITH_EDITOR).LinkEndLocal = self.LinkEndLocal
      ∧ (self.SnapEndToMagnitude WITH_EDITOR).PointLinks = self.PointLinks
      ∧ (self.SnapEndToMagnitude WITH_EDITOR).SmartLinkComp = self.SmartLinkComp
      ∧ (self.SnapEndToMagnitude WITH_EDITOR).Trace
          = self.Trace ++ [Effect.Modify]
            ++ (if self.StartArrow.isSome then [Effect.StartArrowModify] else [])
            ++ (if self.EndArrow.isSome then [Effect.EndArrowModify] else [])
      ∧ ∀ (RelativeStart RelativeEnd : FVector) (Direction : ENavLinkDirection),
          Effect.SetLinkData RelativeStart RelativeEnd Direction
              ∈ (self.SnapEndToMagnitude WITH_EDITOR).Trace
            → Effect.SetLinkData RelativeStart RelativeEnd Direction ∈ self.Trace := by
  rw [SnapEndToMagnitude_of_abort WITH_EDITOR self h]
  refine ⟨rfl, rfl, rfl, rfl, rfl, rfl, rfl, rfl, ?_⟩
  intro RelativeStart RelativeEnd Direction
  cases self.StartArrow <;> cases self.EndArrow <;> simp

/-- C6 at a concrete actor whose `UnitsToCm` is 0: the end marker stays at
(7,50,9), the legacy list keeps its entry, and the record holds the three
modification marks only. -/
theorem snap_abort_unchanged_witness :
    ({ Jump96Up with UnitsToCm := 0 }.SnapEndToMagnitude true).EndArrow
        = some ⟨⟨7, 50, 9⟩, 1⟩
      ∧ ({ Jump96Up with UnitsToCm := 0 }.SnapEndToMagnitude true).PointLinks
          = [⟨⟨1, 2, 3⟩, ⟨4, 5, 6⟩, ENavLinkDirection.LeftToRight⟩]
      ∧ ({ Jump96Up with UnitsToCm := 0 }.SnapEndToMagnitude true).Trace
          = [Effect.Modify, Effect.StartArrowModify, Effect.EndArrowModify] := by
  have h := snap_abort_unchanged true { Jump96Up with UnitsToCm := 0 }
    (Or.inl (by norm_num))
  exact ⟨h.2.1, h.2.2.2.2.2.1, h.2.2.2.2.2.2.2.1⟩

/-- C7: with both markers and the smart-link component present, after
`SyncSmartLinkToEndpoints` the fields `LinkStartLocal` and `LinkEndLocal` are the
positions of the start and end markers (which the sync does not move), the
component holds exactly (start position, end position, BothWays), and the last
call on record is `SetLinkData` with those three arguments, whatever
`LinkStartLocal`, `LinkEndLocal` and the component held before. -/
theorem sync_pushes_marker_positions (self : ASmartLinkProxy)
    (Start End : UArrowComponent) (Comp : UNavLinkCustomComponent)
    (hStart : self.StartArrow = some Start) (hEnd : self.EndArrow = some End)
    (hComp : self.SmartLinkComp = some Comp) :
    self.SyncSmartLinkToEndpoints.StartRel = some Start.RelativeLocation
      ∧ self.SyncSmartLinkToEndpoints.EndRel = some End.RelativeLocation
      ∧ self.SyncSmartLinkToEndpoints.LinkStartLocal = Start.RelativeLocation
      ∧ self.SyncSmartLinkToEndpoints.LinkEndLocal = End.RelativeLocation
      ∧ self.SyncSmartLinkToEndpoints.SmartLinkComp
          = some
            { Comp with
              LinkRelativeStart := Start.RelativeLocation
              LinkRelativeEnd := End.RelativeLocation
              LinkDirection := ENavLinkDirection.BothWays }
      ∧ self.SyncSmartLinkToEndpoints.Trace
          = self.Trace ++
            [Effect.SetLinkData Start.RelativeLocation End.RelativeLocation
              ENavLinkDirection.BothWays] := by
  rw [SyncSmartLinkToEndpoints_of_markers self Start End hStart hEnd]
  simp [StartRel, EndRel, hStart, hEnd, hComp, UArrowComponent.GetRelativeLocation,
    UNavLinkCustomComponent.SetLinkData]

/-- C7 at a concrete actor whose descriptor and component are out of date: the
sync makes both hold (0,-50,0) and (7,50,9), both ways. -/
theorem sync_pushes_marker_positions_witness :
    Jump96Up.SyncSmartLinkToEndpoints.LinkStartLocal = ⟨0, -50, 0⟩
      ∧ Jump96Up.SyncSmartLinkToEndpoints.LinkEndLocal = ⟨7, 50, 9⟩
      ∧ Jump96Up.SyncSmartLinkToEndpoints.SmartLinkComp
          = some ⟨⟨0, -50, 0⟩, ⟨7, 50, 9⟩, ENavLinkDirection.BothWays, true⟩
      ∧ Jump96Up.SyncSmartLinkToEndpoints.Trace
          = [Effect.SetLinkData ⟨0, -50, 0⟩ ⟨7, 50, 9⟩ ENavLinkDirection.BothWays] := by
  have h := sync_pushes_marker_positions Jump96Up ⟨⟨0, -50, 0⟩, 1⟩ ⟨⟨7, 50, 9⟩, 1⟩
    ⟨⟨0, 0, 0⟩, ⟨0, 0, 0⟩, ENavLinkDirection.LeftToRight, true⟩ rfl rfl rfl
  exact ⟨h.2.2.1, h.2.2.2.1, h.2.2.2.2.1, h.2.2.2.2.2⟩

/-- C8, as stated, fails: on an actor without a start marker whose legacy list
holds one simple link, `SyncSmartLinkToEndpoints` empties the list, so the state
after the call is not the state before it. -/
theorem sync_missing_marker_not_noop :
    { Jump96Up with StartArrow := none }.StartArrow = none
      ∧ { Jump96Up with StartArrow := none }.SyncSmartLinkToEndpoints
          ≠ { Jump96Up with StartArrow := none }
      ∧ { Jump96Up with StartArrow := none }.PointLinks
          = [⟨⟨1, 2, 3⟩, ⟨4, 5, 6⟩, ENavLinkDirection.LeftToRight⟩]
      ∧ { Jump96Up with StartArrow := none }.SyncSmartLinkToEndpoints.PointLinks = [] := by
  refine ⟨rfl, ?_, rfl, ?_⟩
  · intro h
    have h2 := congrArg (fun s : ASmartLinkProxy => s.PointLinks.length) h
    simp [SyncSmartLinkToEndpoints, Jump96Up] at h2
  · simp [SyncSmartLinkToEndpoints, Jump96Up]

/-- C8, amended: if the start or the end marker is absent,
`SyncSmartLinkToEndpoints` empties `PointLinks` and does nothing else: the state
after the call is the state before it with `PointLinks` emptied, so
`LinkStartLocal`, `LinkEndLocal`, the markers, the configuration, the consumer's
link data and the record of collaborator calls (no `SetLinkData`) are unchanged. -/
theorem sync_missing_marker_only_clears (self : ASmartLinkProxy)
    (h : self.StartArrow = none ∨ self.EndArrow = none) :
    self.SyncSmartLinkToEndpoints = { self with PointLinks := [] }
      ∧ self.SyncSmartLinkToEndpoints.LinkStartLocal = self.LinkStartLocal
      ∧ self.SyncSmartLinkToEndpoints.LinkEndLocal = self.LinkEndLocal
      ∧ self.SyncSmartLinkToEndpoints.SmartLinkComp = self.SmartLinkComp
      ∧ self.SyncSmartLinkToEndpoints.Trace = self.Trace := by
  rw [SyncSmartLinkToEndpoints_of_missing self h]
  exact ⟨rfl, rfl, rfl, rfl, rfl⟩

/-- C8, amended, at a concrete actor without an end marker. -/
theorem sync_missing_marker_only_clears_witness :
    { Jump96Up with EndArrow := none }.SyncSmartLinkToEndpoints
        = { Jump96Up with EndArrow := none, PointLinks := [] }
      ∧ { Jump96Up with EndArrow := none }.SyncSmartLinkToEndpoints.Trace = [] := by
  have h := sync_missing_marker_only_clears { Jump96Up with EndArrow := none }
    (Or.inr rfl)
  exact ⟨h.1, h.2.2.2.2⟩

/-- A snap leaves an empty legacy list empty, whether it stops at a guard or
goes through. -/
theorem SnapEndToMagnitude_PointLinks (WITH_EDITOR : Bool) (self : ASmartLinkProxy)
    (h : self.PointLinks = []) : (self.SnapEndToMagnitude WITH_EDITOR).PointLinks = [] := by
  by_cases hAbort : self.UnitsToCm ≤ 0 ∨ self.SnapMode = ESnapMode.None
      ∨ self.StartArrow = none ∨ self.EndArrow = none
  · rw [SnapEndToMagnitude_of_abort WITH_EDITOR self hAbort]
    exact h
  · simp only [not_or, not_le] at hAbort
    obtain ⟨hUnits, hMode, hStart, hEnd⟩ := hAbort
    obtain ⟨Start, hStart⟩ := Option.ne_none_iff_exists'.mp hStart
    obtain ⟨End, hEnd⟩ := Option.ne_none_iff_exists'.mp hEnd
    rw [SnapEndToMagnitude_of_ready WITH_EDITOR self Start End hStart hEnd hUnits hMode]
    exact (UpdateNavLinkNow_frame WITH_EDITOR _).2.2.2.2.2.2.2.2

/-- C9: the legacy simple-link list `PointLinks` is empty after the constructor,
after `OnConstruction`, after `BeginPlay`, after `SyncSmartLinkToEndpoints`,
after `UpdateNavLinkNow`, after every `SnapEndToMagnitude` that passes its guards
(both markers present, `UnitsToCm > 0`, a snap mode other than `None`), and after
`PostEditChangeProperty` for every property-changed event (a recognised name, any
other name, or no property) and either value of `bAutoSnapOnChange`: in every
case for every prior content of the list, every state of the markers (present or
missing) and every behaviour of the base class. -/
theorem point_links_emptied :
    (∀ (Super : ANavLinkProxy) (NewArrow : UArrowComponent),
        (ctor Super NewArrow).PointLinks = [])
      ∧ (∀ (Super : ASmartLinkProxy → ASmartLinkProxy) (self : ASmartLinkProxy),
          (OnConstruction Super self).PointLinks = [])
      ∧ (∀ (Super : ASmartLinkProxy → ASmartLinkProxy) (self : ASmartLinkProxy),
          (BeginPlay Super self).PointLinks = [])
      ∧ (∀ self : ASmartLinkProxy, self.SyncSmartLinkToEndpoints.PointLinks = [])
      ∧ (∀ (WITH_EDITOR : Bool) (self : ASmartLinkProxy),
          (self.UpdateNavLinkNow WITH_EDITOR).PointLinks = [])
      ∧ (∀ (WITH_EDITOR : Bool) (self : ASmartLinkProxy) (Start End : UArrowComponent),
          self.StartArrow = some Start → self.EndArrow = some End → 0 < self.UnitsToCm →
          self.SnapMode ≠ ESnapMode.None →
          (self.SnapEndToMagnitude WITH_EDITOR).PointLinks = [])
      ∧ (∀ (Super : FPropertyChangedEvent → ASmartLinkProxy → ASmartLinkProxy)
          (self : ASmartLinkProxy) (PropertyChangedEvent : FPropertyChangedEvent),
          (PostEditChangeProperty Super self PropertyChangedEvent).PointLinks = []) := by
  refine ⟨?_, ?_, ?_, ?_, ?_, ?_, ?_⟩
  · intro Super NewArrow
    rfl
  · intro Super self
    exact (SyncSmartLinkToEndpoints_frame _).2.2.2.2.2.2.2.2
  · intro Super self
    exact (SyncSmartLinkToEndpoints_frame _).2.2.2.2.2.2.2.2
  · intro self
    exact (SyncSmartLinkToEndpoints_frame _).2.2.2.2.2.2.2.2
  · intro WITH_EDITOR self
    exact (UpdateNavLinkNow_frame WITH_EDITOR _).2.2.2.2.2.2.2.2
  · intro WITH_EDITOR self Start End hStart hEnd hUnits hMode
    rw [SnapEndToMagnitude_of_ready WITH_EDITOR self Start End hStart hEnd hUnits hMode]
    exact (UpdateNavLinkNow_frame WITH_EDITOR _).2.2.2.2.2.2.2.2
  · intro Super self PropertyChangedEvent
    unfold PostEditChangeProperty
    simp only
    split_ifs
    · exact (UpdateNavLinkNow_frame true _).2.2.2.2.2.2.2.2
    · exact (UpdateNavLinkNow_frame true _).2.2.2.2.2.2.2.2
    · rfl
    · exact SnapEndToMagnitude_PointLinks true _ rfl
    · rfl

/-- The decision table of `PostEditChangeProperty`, with the tests on the changed
name written as propositions. -/
theorem PostEditChangeProperty_eq
    (Super : FPropertyChangedEvent → ASmartLinkProxy → ASmartLinkProxy)
    (self : ASmartLinkProxy) (PropertyChangedEvent : FPropertyChangedEvent) :
    PostEditChangeProperty Super self PropertyChangedEvent
      = if PropertyChangedEvent.PropName = "LinkStartLocal"
            ∨ PropertyChangedEvent.PropName = "LinkEndLocal" then
          UpdateNavLinkNow true { Super PropertyChangedEvent self with PointLinks := [] }
        else if (Super PropertyChangedEvent self).bAutoSnapOnChange = false then
          if PropertyChangedEvent.PropName ∈
              ["Magnitude", "SnapMode", "AcrossAxis", "UnitsToCm", "AcrossExtraCm",
                "bAutoSnapOnChange"] then
            UpdateNavLinkNow true { Super PropertyChangedEvent self with PointLinks := [] }
          else { Super PropertyChangedEvent self with PointLinks := [] }
        else if PropertyChangedEvent.PropName ∈
            ["Magnitude", "SnapMode", "AcrossAxis", "UnitsToCm", "AcrossExtraCm"] then
          SnapEndToMagnitude true { Super PropertyChangedEvent self with PointLinks := [] }
        else { Super PropertyChangedEvent self with PointLinks := [] } := by
  unfold PostEditChangeProperty FPropertyChangedEvent.PropName
  simp only [Bool.or_eq_true, beq_iff_eq, Bool.not_eq_true', List.mem_cons,
    List.mem_singleton, List.not_mem_nil, or_false, or_assoc]

/-- The calls a sync adds to the record: one `SetLinkData`, both ways, with the
two marker positions when both markers and the component exist; none otherwise. -/
theorem SyncSmartLinkToEndpoints_Trace (self : ASmartLinkProxy) :
    self.SyncSmartLinkToEndpoints.Trace
      = self.Trace ++
        (match self.StartArrow, self.EndArrow, self.SmartLinkComp with
         | some Start, some End, some _ =>
           [Effect.SetLinkData Start.RelativeLocation End.RelativeLocation
             ENavLinkDirection.BothWays]
         | _, _, _ => []) := by
  obtain ⟨⟨pl, comp, rel, tr⟩, sa, ea, mag, mode, axis, auto, u, extra, ls, le⟩ := self
  cases sa <;> cases ea <;> cases comp <;>
    simp [SyncSmartLinkToEndpoints, GetSmartLinkComp, UArrowComponent.GetRelativeLocation]

/-- The calls `UpdateNavLinkNow` adds to the record: those of the sync, then the
render refresh in an editor build. -/
theorem UpdateNavLinkNow_Trace (WITH_EDITOR : Bool) (self : ASmartLinkProxy) :
    (self.UpdateNavLinkNow WITH_EDITOR).Trace
      = self.Trace ++
        ((match self.StartArrow, self.EndArrow, self.SmartLinkComp with
          | some Start, some End, some _ =>
            [Effect.SetLinkData Start.RelativeLocation End.RelativeLocation
              ENavLinkDirection.BothWays]
          | _, _, _ => [])
          ++ (if WITH_EDITOR then [Effect.MarkComponentsRenderStateDirty] else [])) := by
  cases WITH_EDITOR <;>
    simp [UpdateNavLinkNow, record, SyncSmartLinkToEndpoints_Trace]

/-- Every snap, stopped or not, adds at least the actor's modification mark to
the record. -/
theorem SnapEndToMagnitude_Trace_length (WITH_EDITOR : Bool) (self : ASmartLinkProxy) :
    self.Trace.length < (self.SnapEndToMagnitude WITH_EDITOR).Trace.length := by
  by_cases hAbort : self.UnitsToCm ≤ 0 ∨ self.SnapMode = ESnapMode.None
      ∨ self.StartArrow = none ∨ self.EndArrow = none
  · rw [SnapEndToMagnitude_of_abort WITH_EDITOR self hAbort]
    simp only [List.length_append, List.length_singleton]
    omega
  · simp only [not_or, not_le] at hAbort
    obtain ⟨hUnits, hMode, hStart, hEnd⟩ := hAbort
    obtain ⟨Start, hStart⟩ := Option.ne_none_iff_exists'.mp hStart
    obtain ⟨End, hEnd⟩ := Option.ne_none_iff_exists'.mp hEnd
    rw [SnapEndToMagnitude_of_ready WITH_EDITOR self Start End hStart hEnd hUnits hMode,
      UpdateNavLinkNow_Trace]
    simp only [List.length_append, List.length_cons, List.length_nil]
    omega

/-- C11: when the changed property is `LinkStartLocal` or `LinkEndLocal`,
`PostEditChangeProperty` never snaps, whatever `bAutoSnapOnChange` is: the state
it returns is that of emptying `PointLinks` and calling `UpdateNavLinkNow` on the
state the base class left, both markers are where they were, and the record
gains no `SetRelativeLocation` on the end marker. -/
theorem endpoint_edit_only_resyncs
    (Super : FPropertyChangedEvent → ASmartLinkProxy → ASmartLinkProxy)
    (self : ASmartLinkProxy) (PropertyChangedEvent : FPropertyChangedEvent)
    (h : PropertyChangedEvent.PropName = "LinkStartLocal"
      ∨ PropertyChangedEvent.PropName = "LinkEndLocal") :
    PostEditChangeProperty Super self PropertyChangedEvent
        = UpdateNavLinkNow true { Super PropertyChangedEvent self with PointLinks := [] }
      ∧ (PostEditChangeProperty Super self PropertyChangedEvent).StartArrow
          = (Super PropertyChangedEvent self).StartArrow
      ∧ (PostEditChangeProperty Super self PropertyChangedEvent).EndArrow
          = (Super PropertyChangedEvent self).EndArrow
      ∧ ∀ NewLocation : FVector,
          Effect.EndArrowSetRelativeLocation NewLocation
              ∈ (PostEditChangeProperty Super self PropertyChangedEvent).Trace
            → Effect.EndArrowSetRelativeLocation NewLocation
              ∈ (Super PropertyChangedEvent self).Trace := by
  rw [PostEditChangeProperty_eq, if_pos h]
  refine ⟨rfl, (UpdateNavLinkNow_frame true _).1, (UpdateNavLinkNow_frame true _).2.1, ?_⟩
  intro NewLocation
  rw [UpdateNavLinkNow_Trace]
  simp only [List.mem_append]
  rintro (h1 | h2 | h3)
  · exact h1
  · split at h2 <;> simp at h2
  · simp at h3

/-- C11 at a concrete actor with `bAutoSnapOnChange = true` and an event naming
`LinkEndLocal`: the end marker stays at (7,50,9). -/
theorem endpoint_edit_only_resyncs_witness :
    PostEditChangeProperty (fun _ s => s) Jump96Up ⟨some ⟨"LinkEndLocal"⟩⟩
        = UpdateNavLinkNow true { Jump96Up with PointLinks := [] }
      ∧ (PostEditChangeProperty (fun _ s => s) Jump96Up ⟨some ⟨"LinkEndLocal"⟩⟩).EndArrow
          = some ⟨⟨7, 50, 9⟩, 1⟩ := by
  have h := endpoint_edit_only_resyncs (fun _ s => s) Jump96Up ⟨some ⟨"LinkEndLocal"⟩⟩
    (Or.inr rfl)
  exact ⟨h.1, h.2.2.1⟩

/-- In an editor build `UpdateNavLinkNow` always adds the render refresh to the
record, so its result is never the state it started from. -/
theorem UpdateNavLinkNow_true_ne (self : ASmartLinkProxy) :
    self.UpdateNavLinkNow true ≠ self := by
  intro h
  have h2 := congrArg (fun s : ASmartLinkProxy => s.Trace.length) h
  simp only [UpdateNavLinkNow_Trace, List.length_append] at h2
  simp at h2

/-- A snap always adds to the record, so its result is never the state it
started from. -/
theorem SnapEndToMagnitude_ne (WITH_EDITOR : Bool) (self : ASmartLinkProxy) :
    self.SnapEndToMagnitude WITH_EDITOR ≠ self := by
  intro h
  have h2 := SnapEndToMagnitude_Trace_length WITH_EDITOR self
  rw [h] at h2
  exact lt_irrefl _ h2

/-- C12: with `bAutoSnapOnChange` false and a changed property that is neither
`LinkStartLocal` nor `LinkEndLocal`, `PostEditChangeProperty` never moves a
marker. It returns the state of `UpdateNavLinkNow` (on the state the base class
left, `PointLinks` emptied) exactly when the changed property is one of
`Magnitude`, `SnapMode`, `AcrossAxis`, `UnitsToCm`, `AcrossExtraCm`,
`bAutoSnapOnChange`; for any other property, or none, it returns that state with
`PointLinks` emptied and nothing else changed, the record of calls included. -/
theorem no_autosnap_resyncs_on_config_change
    (Super : FPropertyChangedEvent → ASmartLinkProxy → ASmartLinkProxy)
    (self : ASmartLinkProxy) (PropertyChangedEvent : FPropertyChangedEvent)
    (hAuto : (Super PropertyChangedEvent self).bAutoSnapOnChange = false)
    (hStartLocal : PropertyChangedEvent.PropName ≠ "LinkStartLocal")
    (hEndLocal : PropertyChangedEvent.PropName ≠ "LinkEndLocal") :
    (PostEditChangeProperty Super self PropertyChangedEvent).StartArrow
        = (Super PropertyChangedEvent self).StartArrow
      ∧ (PostEditChangeProperty Super self PropertyChangedEvent).EndArrow
          = (Super PropertyChangedEvent self).EndArrow
      ∧ (PostEditChangeProperty Super self PropertyChangedEvent
            = UpdateNavLinkNow true
                { Super PropertyChangedEvent self with PointLinks := [] }
          ↔ PropertyChangedEvent.PropName ∈
              ["Magnitude", "SnapMode", "AcrossAxis", "UnitsToCm", "AcrossExtraCm",
                "bAutoSnapOnChange"])
      ∧ (PropertyChangedEvent.PropName ∉
            ["Magnitude", "SnapMode", "AcrossAxis", "UnitsToCm", "AcrossExtraCm",
              "bAutoSnapOnChange"]
          → PostEditChangeProperty Super self PropertyChangedEvent
              = { Super PropertyChangedEvent self with PointLinks := [] }
            ∧ (PostEditChangeProperty Super self PropertyChangedEvent).Trace
              = (Super PropertyChangedEvent self).Trace) := by
  have hNot : ¬(PropertyChangedEvent.PropName = "LinkStartLocal"
      ∨ PropertyChangedEvent.PropName = "LinkEndLocal") := by
    rintro (h | h)
    · exact hStartLocal h
    · exact hEndLocal h
  rw [PostEditChangeProperty_eq, if_neg hNot, if_pos hAuto]
  by_cases hMem : PropertyChangedEvent.PropName ∈
      ["Magnitude", "SnapMode", "AcrossAxis", "UnitsToCm", "AcrossExtraCm",
        "bAutoSnapOnChange"]
  · rw [if_pos hMem]
    exact ⟨(UpdateNavLinkNow_frame true _).1, (UpdateNavLinkNow_frame true _).2.1,
      ⟨fun _ => hMem, fun _ => rfl⟩, fun hOut => absurd hMem hOut⟩
  · rw [if_neg hMem]
    exact ⟨rfl, rfl, ⟨fun hEq => absurd hEq.symm (UpdateNavLinkNow_true_ne _),
      fun hIn => absurd hIn hMem⟩, fun _ => ⟨rfl, rfl⟩⟩

/-- C12 at a concrete actor with `bAutoSnapOnChange = false`: an event naming
`UnitsToCm` re-syncs and leaves the end marker at (7,50,9). -/
theorem no_autosnap_resyncs_on_config_change_witness :
    (PostEditChangeProperty (fun _ s => s) { Jump96Up with bAutoSnapOnChange := false }
        ⟨some ⟨"UnitsToCm"⟩⟩).EndArrow = some ⟨⟨7, 50, 9⟩, 1⟩
      ∧ (PostEditChangeProperty (fun _ s => s) { Jump96Up with bAutoSnapOnChange := false }
            ⟨some ⟨"UnitsToCm"⟩⟩
          = UpdateNavLinkNow true
              { Jump96Up with bAutoSnapOnChange := false, PointLinks := [] }
        ↔ "UnitsToCm" ∈
            ["Magnitude", "SnapMode", "AcrossAxis", "UnitsToCm", "AcrossExtraCm",
              "bAutoSnapOnChange"]) := by
  have h := no_autosnap_resyncs_on_config_change (fun _ s => s)
    { Jump96Up with bAutoSnapOnChange := false } ⟨some ⟨"UnitsToCm"⟩⟩ rfl
    (by decide) (by decide)
  exact ⟨h.2.1, h.2.2.1⟩

/-- C13: with `bAutoSnapOnChange` true and a changed property that is neither
`LinkStartLocal` nor `LinkEndLocal`, `PostEditChangeProperty` returns the state
of `SnapEndToMagnitude` (on the state the base class left, `PointLinks` emptied)
exactly when the changed property is one of `Magnitude`, `SnapMode`,
`AcrossAxis`, `UnitsToCm`, `AcrossExtraCm`. For any other property,
`bAutoSnapOnChange` included, or none, neither marker moves, `LinkStartLocal`,
`LinkEndLocal` and the consumer's link data are untouched and the record of
calls gains nothing. -/
theorem autosnap_snaps_on_config_change
    (Super : FPropertyChangedEvent → ASmartLinkProxy → ASmartLinkProxy)
    (self : ASmartLinkProxy) (PropertyChangedEvent : FPropertyChangedEvent)
    (hAuto : (Super PropertyChangedEvent self).bAutoSnapOnChange = true)
    (hStartLocal : PropertyChangedEvent.PropName ≠ "LinkStartLocal")
    (hEndLocal : PropertyChangedEvent.PropName ≠ "LinkEndLocal") :
    (PostEditChangeProperty Super self PropertyChangedEvent
          = SnapEndToMagnitude true
              { Super PropertyChangedEvent self with PointLinks := [] }
        ↔ PropertyChangedEvent.PropName ∈
            ["Magnitude", "SnapMode", "AcrossAxis", "UnitsToCm", "AcrossExtraCm"])
      ∧ (PropertyChangedEvent.PropName ∉
            ["Magnitude", "SnapMode", "AcrossAxis", "UnitsToCm", "AcrossExtraCm"]
          → PostEditChangeProperty Super self PropertyChangedEvent
              = { Super PropertyChangedEvent self with PointLinks := [] }
            ∧ (PostEditChangeProperty Super self PropertyChangedEvent).StartArrow
              = (Super PropertyChangedEvent self).StartArrow
            ∧ (PostEditChangeProperty Super self PropertyChangedEvent).EndArrow
              = (Super PropertyChangedEvent self).EndArrow
            ∧ (PostEditChangeProperty Super self PropertyChangedEvent).LinkStartLocal
              = (Super PropertyChangedEvent self).LinkStartLocal
            ∧ (PostEditChangeProperty Super self PropertyChangedEvent).LinkEndLocal
              = (Super PropertyChangedEvent self).LinkEndLocal
            ∧ (PostEditChangeProperty Super self PropertyChangedEvent).SmartLinkComp
              = (Super PropertyChangedEvent self).SmartLinkComp
            ∧ (PostEditChangeProperty Super self PropertyChangedEvent).Trace
              = (Super PropertyChangedEvent self).Trace) := by
  have hNot : ¬(PropertyChangedEvent.PropName = "LinkStartLocal"
      ∨ PropertyChangedEvent.PropName = "LinkEndLocal") := by
    rintro (h | h)
    · exact hStartLocal h
    · exact hEndLocal h
  have hAuto2 : ¬((Super PropertyChangedEvent self).bAutoSnapOnChange = false) := by
    simp [hAuto]
  rw [PostEditChangeProperty_eq, if_neg hNot, if_neg hAuto2]
  by_cases hMem : PropertyChangedEvent.PropName ∈
      ["Magnitude", "SnapMode", "AcrossAxis", "UnitsToCm", "AcrossExtraCm"]
  · rw [if_pos hMem]
    exact ⟨⟨fun _ => hMem, fun _ => rfl⟩, fun hOut => absurd hMem hOut⟩
  · rw [if_neg hMem]
    exact ⟨⟨fun hEq => absurd hEq.symm (SnapEndToMagnitude_ne true _),
      fun hIn => absurd hIn hMem⟩, fun _ => ⟨rfl, rfl, rfl, rfl, rfl, rfl, rfl⟩⟩

/-- C13 at a concrete actor with `bAutoSnapOnChange = true`: an event naming
`Magnitude` gives the state of the snap; an event naming `bAutoSnapOnChange`
leaves the record of calls empty. -/
theorem autosnap_snaps_on_config_change_witness :
    (PostEditChangeProperty (fun _ s => s) Jump96Up ⟨some ⟨"Magnitude"⟩⟩
          = SnapEndToMagnitude true { Jump96Up with PointLinks := [] }
        ↔ "Magnitude" ∈
            ["Magnitude", "SnapMode", "AcrossAxis", "UnitsToCm", "AcrossExtraCm"])
      ∧ (PostEditChangeProperty (fun _ s => s) Jump96Up
            ⟨some ⟨"bAutoSnapOnChange"⟩⟩).Trace = [] := by
  have h1 := autosnap_snaps_on_config_change (fun _ s => s) Jump96Up
    ⟨some ⟨"Magnitude"⟩⟩ rfl (by decide) (by decide)
  have h2 := autosnap_snaps_on_config_change (fun _ s => s) Jump96Up
    ⟨some ⟨"bAutoSnapOnChange"⟩⟩ rfl (by decide) (by decide)
  exact ⟨h1.1, (h2.2 (by decide)).2.2.2.2.2.2⟩

/-- What `UpdateNavLinkNow` adds to the record holds no `SetLinkData` other than
both-ways ones. -/
theorem UpdateNavLinkNow_added (WITH_EDITOR : Bool) (self : ASmartLinkProxy) :
    ∃ added : List Effect,
      (self.UpdateNavLinkNow WITH_EDITOR).Trace = self.Trace ++ added
        ∧ ∀ (RelativeStart RelativeEnd : FVector) (Direction : ENavLinkDirection),
            Effect.SetLinkData RelativeStart RelativeEnd Direction ∈ added
              → Direction = ENavLinkDirection.BothWays := by
  refine ⟨_, UpdateNavLinkNow_Trace WITH_EDITOR self, ?_⟩
  intro RelativeStart RelativeEnd Direction h
  simp only [List.mem_append] at h
  rcases h with h | h
  · split at h
    · simp only [List.mem_singleton, Effect.SetLinkData.injEq] at h
      exact h.2.2
    · simp at h
  · cases WITH_EDITOR <;> simp at h

/-- The state of a snap that passes every guard, the new end position left
unnamed. -/
theorem SnapEndToMagnitude_of_ready_exists (WITH_EDITOR : Bool) (self : ASmartLinkProxy)
    (Start End : UArrowComponent)
    (hStart : self.StartArrow = some Start) (hEnd : self.EndArrow = some End)
    (hUnits : 0 < self.UnitsToCm) (hMode : self.SnapMode ≠ ESnapMode.None) :
    ∃ NewEnd : FVector,
      self.SnapEndToMagnitude WITH_EDITOR
        = UpdateNavLinkNow WITH_EDITOR
            { self with
              EndArrow := some { End with RelativeLocation := NewEnd }
              Trace := self.Trace ++
                [Effect.Modify, Effect.StartArrowModify, Effect.EndArrowModify,
                 Effect.EndArrowSetRelativeLocation NewEnd] } :=
  ⟨_, SnapEndToMagnitude_of_ready WITH_EDITOR self Start End hStart hEnd hUnits hMode⟩

/-- What a snap adds to the record holds no `SetLinkData` other than both-ways
ones. -/
theorem SnapEndToMagnitude_added (WITH_EDITOR : Bool) (self : ASmartLinkProxy) :
    ∃ added : List Effect,
      (self.SnapEndToMagnitude WITH_EDITOR).Trace = self.Trace ++ added
        ∧ ∀ (RelativeStart RelativeEnd : FVector) (Direction : ENavLinkDirection),
            Effect.SetLinkData RelativeStart RelativeEnd Direction ∈ added
              → Direction = ENavLinkDirection.BothWays := by
  by_cases hAbort : self.UnitsToCm ≤ 0 ∨ self.SnapMode = ESnapMode.None
      ∨ self.StartArrow = none ∨ self.EndArrow = none
  · rw [SnapEndToMagnitude_of_abort WITH_EDITOR self hAbort]
    refine ⟨_, List.append_assoc _ _ _ |>.trans (List.append_assoc _ _ _), ?_⟩
    intro RelativeStart RelativeEnd Direction h
    cases self.StartArrow <;> cases self.EndArrow <;> simp at h
  · simp only [not_or, not_le] at hAbort
    obtain ⟨hUnits, hMode, hStart, hEnd⟩ := hAbort
    obtain ⟨Start, hStart⟩ := Option.ne_none_iff_exists'.mp hStart
    obtain ⟨End, hEnd⟩ := Option.ne_none_iff_exists'.mp hEnd
    obtain ⟨NewEnd, hSnap⟩ := SnapEndToMagnitude_of_ready_exists WITH_EDITOR self Start End
      hStart hEnd hUnits hMode
    rw [hSnap]
    obtain ⟨added, hTrace, hAdded⟩ := UpdateNavLinkNow_added WITH_EDITOR
      { self with
        EndArrow := some { End with RelativeLocation := NewEnd }
        Trace := self.Trace ++
          [Effect.Modify, Effect.StartArrowModify, Effect.EndArrowModify,
           Effect.EndArrowSetRelativeLocation NewEnd] }
    rw [hTrace]
    refine ⟨_, List.append_assoc _ _ _, ?_⟩
    intro RelativeStart RelativeEnd Direction h
    simp only [List.mem_append, List.mem_cons, List.mem_singleton, List.not_mem_nil,
      or_false, false_or] at h
    rcases h with h | h
    · simp at h
    · exact hAdded _ _ _ h

/-- C14: every `SetLinkData` call the actor makes carries `BothWays`. For each of
`SyncSmartLinkToEndpoints`, `UpdateNavLinkNow`, `SnapEndToMagnitude`,
`PostEditChangeProperty`, `OnConstruction` and `BeginPlay`, from every state, the
record of calls after the operation is the record before it (after the base
class's part, for the three overrides) followed by the calls the operation
added, and every `SetLinkData` among those has direction `BothWays`. -/
theorem link_data_always_both_ways :
    (∀ self : ASmartLinkProxy,
        ∃ added : List Effect,
          self.SyncSmartLinkToEndpoints.Trace = self.Trace ++ added
            ∧ ∀ (RelativeStart RelativeEnd : FVector) (Direction : ENavLinkDirection),
                Effect.SetLinkData RelativeStart RelativeEnd Direction ∈ added
                  → Direction = ENavLinkDirection.BothWays)
      ∧ (∀ (WITH_EDITOR : Bool) (self : ASmartLinkProxy),
          ∃ added : List Effect,
            (self.UpdateNavLinkNow WITH_EDITOR).Trace = self.Trace ++ added
              ∧ ∀ (RelativeStart RelativeEnd : FVector) (Direction : ENavLinkDirection),
                  Effect.SetLinkData RelativeStart RelativeEnd Direction ∈ added
                    → Direction = ENavLinkDirection.BothWays)
      ∧ (∀ (WITH_EDITOR : Bool) (self : ASmartLinkProxy),
          ∃ added : List Effect,
            (self.SnapEndToMagnitude WITH_EDITOR).Trace = self.Trace ++ added
              ∧ ∀ (RelativeStart RelativeEnd : FVector) (Direction : ENavLinkDirection),
                  Effect.SetLinkData RelativeStart RelativeEnd Direction ∈ added
                    → Direction = ENavLinkDirection.BothWays)
      ∧ (∀ (Super : FPropertyChangedEvent → ASmartLinkProxy → ASmartLinkProxy)
          (self : ASmartLinkProxy) (PropertyChangedEvent : FPropertyChangedEvent),
          ∃ added : List Effect,
            (PostEditChangeProperty Super self PropertyChangedEvent).Trace
                = (Super PropertyChangedEvent self).Trace ++ added
              ∧ ∀ (RelativeStart RelativeEnd : FVector) (Direction : ENavLinkDirection),
                  Effect.SetLinkData RelativeStart RelativeEnd Direction ∈ added
                    → Direction = ENavLinkDirection.BothWays)
      ∧ (∀ (Super : ASmartLinkProxy → ASmartLinkProxy) (self : ASmartLinkProxy),
          ∃ added : List Effect,
            (OnConstruction Super self).Trace = (Super self).Trace ++ added
              ∧ ∀ (RelativeStart RelativeEnd : FVector) (Direction : ENavLinkDirection),
                  Effect.SetLinkData RelativeStart RelativeEnd Direction ∈ added
                    → Direction = ENavLinkDirection.BothWays)
      ∧ (∀ (Super : ASmartLinkProxy → ASmartLinkProxy) (self : ASmartLinkProxy),
          ∃ added : List Effect,
            (BeginPlay Super self).Trace = (Super self).Trace ++ added
              ∧ ∀ (RelativeStart RelativeEnd : FVector) (Direction : ENavLinkDirection),
                  Effect.SetLinkData RelativeStart RelativeEnd Direction ∈ added
                    → Direction = ENavLinkDirection.BothWays) := by
  have hSync : ∀ self : ASmartLinkProxy,
      ∃ added : List Effect,
        self.SyncSmartLinkToEndpoints.Trace = self.Trace ++ added
          ∧ ∀ (RelativeStart RelativeEnd : FVector) (Direction : ENavLinkDirection),
              Effect.SetLinkData RelativeStart RelativeEnd Direction ∈ added
                → Direction = ENavLinkDirection.BothWays := by
    intro self
    have h := UpdateNavLinkNow_added false self
    simpa [UpdateNavLinkNow] using h
  have hNone : ∀ t : List Effect,
      ∃ added : List Effect,
        t = t ++ added
          ∧ ∀ (RelativeStart RelativeEnd : FVector) (Direction : ENavLinkDirection),
              Effect.SetLinkData RelativeStart RelativeEnd Direction ∈ added
                → Direction = ENavLinkDirection.BothWays :=
    fun t => ⟨[], (List.append_nil t).symm, fun _ _ _ h => absurd h (List.not_mem_nil _)⟩
  refine ⟨hSync, UpdateNavLinkNow_added, SnapEndToMagnitude_added, ?_, ?_, ?_⟩
  · intro Super self PropertyChangedEvent
    rw [PostEditChangeProperty_eq]
    split_ifs
    · exact UpdateNavLinkNow_added true _
    · exact UpdateNavLinkNow_added true _
    · exact hNone _
    · exact SnapEndToMagnitude_added true _
    · exact hNone _
  · intro Super self
    exact hSync { Super self with PointLinks := [] }
  · intro Super self
    exact hSync { Super self with PointLinks := [] }

/-- C16: `UpdateNavLinkNow`, `OnConstruction` and `BeginPlay` are one
`SyncSmartLinkToEndpoints` each. Outside the editor `UpdateNavLinkNow` is the
sync; in the editor it is the sync followed by the render refresh, its only
other effect. `OnConstruction` and `BeginPlay` are the sync of the state the
base class left (the sync of the starting state itself when the base class
does nothing). A sync moves no marker and resets no configuration field. -/
theorem update_and_lifecycle_are_sync :
    (∀ self : ASmartLinkProxy, self.UpdateNavLinkNow false = self.SyncSmartLinkToEndpoints)
      ∧ (∀ self : ASmartLinkProxy,
          self.UpdateNavLinkNow true
            = { self.SyncSmartLinkToEndpoints with
                Trace := self.SyncSmartLinkToEndpoints.Trace
                  ++ [Effect.MarkComponentsRenderStateDirty] })
      ∧ (∀ (Super : ASmartLinkProxy → ASmartLinkProxy) (self : ASmartLinkProxy),
          OnConstruction Super self = (Super self).SyncSmartLinkToEndpoints)
      ∧ (∀ (Super : ASmartLinkProxy → ASmartLinkProxy) (self : ASmartLinkProxy),
          BeginPlay Super self = (Super self).SyncSmartLinkToEndpoints)
      ∧ (∀ self : ASmartLinkProxy,
          OnConstruction id self = self.SyncSmartLinkToEndpoints
            ∧ BeginPlay id self = self.SyncSmartLinkToEndpoints)
      ∧ (∀ self : ASmartLinkProxy,
          self.SyncSmartLinkToEndpoints.StartArrow = self.StartArrow
            ∧ self.SyncSmartLinkToEndpoints.EndArrow = self.EndArrow
            ∧ self.SyncSmartLinkToEndpoints.Magnitude = self.Magnitude
            ∧ self.SyncSmartLinkToEndpoints.SnapMode = self.SnapMode
            ∧ self.SyncSmartLinkToEndpoints.AcrossAxis = self.AcrossAxis
            ∧ self.SyncSmartLinkToEndpoints.bAutoSnapOnChange = self.bAutoSnapOnChange
            ∧ self.SyncSmartLinkToEndpoints.UnitsToCm = self.UnitsToCm
            ∧ self.SyncSmartLinkToEndpoints.AcrossExtraCm = self.AcrossExtraCm) := by
  refine ⟨fun _ => rfl, fun _ => rfl, fun _ _ => rfl, fun _ _ => rfl,
    fun _ => ⟨rfl, rfl⟩, ?_⟩
  intro self
  have h := SyncSmartLinkToEndpoints_frame self
  exact ⟨h.1, h.2.1, h.2.2.1, h.2.2.2.1, h.2.2.2.2.1, h.2.2.2.2.2.1, h.2.2.2.2.2.2.1,
    h.2.2.2.2.2.2.2.1⟩

/-- C17: `GetCodUnitsFromMagnitude` sends each of the eleven enumerators of
`ETraversalMagnitude` to the number in its name; it takes the enumerator and
nothing else, so no field of the actor enters the value. -/
theorem magnitude_table :
    GetCodUnitsFromMagnitude ETraversalMagnitude.Jump36 = 36
      ∧ GetCodUnitsFromMagnitude ETraversalMagnitude.Jump48 = 48
      ∧ GetCodUnitsFromMagnitude ETraversalMagnitude.Jump72 = 72
      ∧ GetCodUnitsFromMagnitude ETraversalMagnitude.Jump96 = 96
      ∧ GetCodUnitsFromMagnitude ETraversalMagnitude.Jump128 = 128
      ∧ GetCodUnitsFromMagnitude ETraversalMagnitude.Jump160 = 160
      ∧ GetCodUnitsFromMagnitude ETraversalMagnitude.Jump200 = 200
      ∧ GetCodUnitsFromMagnitude ETraversalMagnitude.Jump256 = 256
      ∧ GetCodUnitsFromMagnitude ETraversalMagnitude.Jump348 = 348
      ∧ GetCodUnitsFromMagnitude ETraversalMagnitude.Across128 = 128
      ∧ GetCodUnitsFromMagnitude ETraversalMagnitude.Across256 = 256 :=
  ⟨rfl, rfl, rfl, rfl, rfl, rfl, rfl, rfl, rfl, rfl, rfl⟩

/-- A sync does not read `LinkStartLocal` / `LinkEndLocal`: started from two
states that differ in these two fields only, it ends in two states that differ
in these two fields at most. -/
theorem SyncSmartLinkToEndpoints_descriptor (self : ASmartLinkProxy)
    (a b x y : FVector) :
    { ({ self with LinkStartLocal := a, LinkEndLocal := b } :
          ASmartLinkProxy).SyncSmartLinkToEndpoints with
        LinkStartLocal := x, LinkEndLocal := y }
      = { self.SyncSmartLinkToEndpoints with LinkStartLocal := x, LinkEndLocal := y } := by
  obtain ⟨⟨pl, comp, rel, tr⟩, sa, ea, mag, mode, axis, auto, u, extra, ls, le⟩ := self
  cases sa <;> cases ea <;> cases comp <;>
    simp [SyncSmartLinkToEndpoints, GetSmartLinkComp]

/-- The same for `UpdateNavLinkNow`. -/
theorem UpdateNavLinkNow_descriptor (WITH_EDITOR : Bool) (self : ASmartLinkProxy)
    (a b x y : FVector) :
    { UpdateNavLinkNow WITH_EDITOR { self with LinkStartLocal := a, LinkEndLocal := b } with
        LinkStartLocal := x, LinkEndLocal := y }
      = { self.UpdateNavLinkNow WITH_EDITOR with LinkStartLocal := x, LinkEndLocal := y } := by
  obtain ⟨⟨pl, comp, rel, tr⟩, sa, ea, mag, mode, axis, auto, u, extra, ls, le⟩ := self
  cases sa <;> cases ea <;> cases comp <;> cases WITH_EDITOR <;>
    simp [UpdateNavLinkNow, record, SyncSmartLinkToEndpoints, GetSmartLinkComp]

/-- The same for `SnapEndToMagnitude`. -/
theorem SnapEndToMagnitude_descriptor (WITH_EDITOR : Bool) (self : ASmartLinkProxy)
    (a b x y : FVector) :
    { SnapEndToMagnitude WITH_EDITOR { self with LinkStartLocal := a, LinkEndLocal := b } with
        LinkStartLocal := x, LinkEndLocal := y }
      = { self.SnapEndToMagnitude WITH_EDITOR with LinkStartLocal := x, LinkEndLocal := y } := by
  have hpos := GetCodUnitsFromMagnitude_pos self.Magnitude
  obtain ⟨⟨pl, comp, rel, tr⟩, sa, ea, mag, mode, axis, auto, u, extra, ls, le⟩ := self
  simp only at hpos
  by_cases hu : u ≤ 0 <;> cases sa <;> cases ea <;> cases mode <;> cases comp <;>
    cases WITH_EDITOR <;>
    simp [SnapEndToMagnitude, UpdateNavLinkNow, SyncSmartLinkToEndpoints, record,
      GetSmartLinkComp, UArrowComponent.GetRelativeLocation,
      UArrowComponent.SetRelativeLocation, UNavLinkCustomComponent.SetLinkData,
      GetAcrossOffsetRelative, hu, not_le.mpr hpos]

/-- The same for `PostEditChangeProperty`, for a base class that neither reads
nor writes the two fields. -/
theorem PostEditChangeProperty_descriptor
    (Super : FPropertyChangedEvent → ASmartLinkProxy → ASmartLinkProxy)
    (hSuper : ∀ (e : FPropertyChangedEvent) (s : ASmartLinkProxy) (a b : FVector),
      Super e { s with LinkStartLocal := a, LinkEndLocal := b }
        = { Super e s with LinkStartLocal := a, LinkEndLocal := b })
    (self : ASmartLinkProxy) (PropertyChangedEvent : FPropertyChangedEvent)
    (a b x y : FVector) :
    { PostEditChangeProperty Super { self with LinkStartLocal := a, LinkEndLocal := b }
          PropertyChangedEvent with
        LinkStartLocal := x, LinkEndLocal := y }
      = { PostEditChangeProperty Super self PropertyChangedEvent with
          LinkStartLocal := x, LinkEndLocal := y } := by
  rw [PostEditChangeProperty_eq, PostEditChangeProperty_eq, hSuper]
  have hSwap : ({ ({ Super PropertyChangedEvent self with
        LinkStartLocal := a, LinkEndLocal := b } : ASmartLinkProxy) with
        PointLinks := [] } : ASmartLinkProxy)
      = { ({ Super PropertyChangedEvent self with PointLinks := [] } : ASmartLinkProxy) with
          LinkStartLocal := a, LinkEndLocal := b } := rfl
  rw [hSwap]
  split_ifs
  · exact UpdateNavLinkNow_descriptor true _ a b x y
  · exact UpdateNavLinkNow_descriptor true _ a b x y
  · rfl
  · exact SnapEndToMagnitude_descriptor true _ a b x y
  · rfl

/-- C19: the link data is derived from the two markers and from nothing held in
`LinkStartLocal` / `LinkEndLocal`. Take any state and any other values
`StartLocal`, `EndLocal` for these two fields, and a base class that neither
reads nor writes them. For each of `SyncSmartLinkToEndpoints`,
`UpdateNavLinkNow`, `SnapEndToMagnitude`, `PostEditChangeProperty`,
`OnConstruction` and `BeginPlay`, the state reached from the altered start agrees
with the state reached from the original start in every field but these two:
same markers, same consumer link data, same record of calls. And when both
markers are present the sync overwrites both fields with the marker positions,
so the two end states are then equal outright. -/
theorem descriptor_is_never_an_input (WITH_EDITOR : Bool)
    (SuperOnConstruction SuperBeginPlay : ASmartLinkProxy → ASmartLinkProxy)
    (SuperPostEdit : FPropertyChangedEvent → ASmartLinkProxy → ASmartLinkProxy)
    (hOnConstruction : ∀ (s : ASmartLinkProxy) (a b : FVector),
      SuperOnConstruction { s with LinkStartLocal := a, LinkEndLocal := b }
        = { SuperOnConstruction s with LinkStartLocal := a, LinkEndLocal := b })
    (hBeginPlay : ∀ (s : ASmartLinkProxy) (a b : FVector),
      SuperBeginPlay { s with LinkStartLocal := a, LinkEndLocal := b }
        = { SuperBeginPlay s with LinkStartLocal := a, LinkEndLocal := b })
    (hPostEdit : ∀ (e : FPropertyChangedEvent) (s : ASmartLinkProxy) (a b : FVector),
      SuperPostEdit e { s with LinkStartLocal := a, LinkEndLocal := b }
        = { SuperPostEdit e s with LinkStartLocal := a, LinkEndLocal := b })
    (self : ASmartLinkProxy) (StartLocal EndLocal : FVector)
    (PropertyChangedEvent : FPropertyChangedEvent) :
    { ({ self with LinkStartLocal := StartLocal, LinkEndLocal := EndLocal } :
            ASmartLinkProxy).SyncSmartLinkToEndpoints with
          LinkStartLocal := self.SyncSmartLinkToEndpoints.LinkStartLocal
          LinkEndLocal := self.SyncSmartLinkToEndpoints.LinkEndLocal }
        = self.SyncSmartLinkToEndpoints
      ∧ { UpdateNavLinkNow WITH_EDITOR
              { self with LinkStartLocal := StartLocal, LinkEndLocal := EndLocal } with
            LinkStartLocal := (self.UpdateNavLinkNow WITH_EDITOR).LinkStartLocal
            LinkEndLocal := (self.UpdateNavLinkNow WITH_EDITOR).LinkEndLocal }
          = self.UpdateNavLinkNow WITH_EDITOR
      ∧ { SnapEndToMagnitude WITH_EDITOR
              { self with LinkStartLocal := StartLocal, LinkEndLocal := EndLocal } with
            LinkStartLocal := (self.SnapEndToMagnitude WITH_EDITOR).LinkStartLocal
            LinkEndLocal := (self.SnapEndToMagnitude WITH_EDITOR).LinkEndLocal }
          = self.SnapEndToMagnitude WITH_EDITOR
      ∧ { PostEditChangeProperty SuperPostEdit
              { self with LinkStartLocal := StartLocal, LinkEndLocal := EndLocal }
              PropertyChangedEvent with
            LinkStartLocal
              := (PostEditChangeProperty SuperPostEdit self PropertyChangedEvent).LinkStartLocal
            LinkEndLocal
              := (PostEditChangeProperty SuperPostEdit self PropertyChangedEvent).LinkEndLocal }
          = PostEditChangeProperty SuperPostEdit self PropertyChangedEvent
      ∧ { OnConstruction SuperOnConstruction
              { self with LinkStartLocal := StartLocal, LinkEndLocal := EndLocal } with
            LinkStartLocal := (OnConstruction SuperOnConstruction self).LinkStartLocal
            LinkEndLocal := (OnConstruction SuperOnConstruction self).LinkEndLocal }
          = OnConstruction SuperOnConstruction self
      ∧ { BeginPlay SuperBeginPlay
              { self with LinkStartLocal := StartLocal, LinkEndLocal := EndLocal } with
            LinkStartLocal := (BeginPlay SuperBeginPlay self).LinkStartLocal
            LinkEndLocal := (BeginPlay SuperBeginPlay self).LinkEndLocal }
          = BeginPlay SuperBeginPlay self
      ∧ ∀ Start End : UArrowComponent,
          self.StartArrow = some Start → self.EndArrow = some End →
          (({ self with LinkStartLocal := StartLocal, LinkEndLocal := EndLocal } :
                ASmartLinkProxy).SyncSmartLinkToEndpoints).LinkStartLocal
              = Start.RelativeLocation
            ∧ (({ self with LinkStartLocal := StartLocal, LinkEndLocal := EndLocal } :
                ASmartLinkProxy).SyncSmartLinkToEndpoints).LinkEndLocal
              = End.RelativeLocation
            ∧ ({ self with LinkStartLocal := StartLocal, LinkEndLocal := EndLocal } :
                ASmartLinkProxy).SyncSmartLinkToEndpoints
              = self.SyncSmartLinkToEndpoints := by
  refine ⟨?_, ?_, ?_, ?_, ?_, ?_, ?_⟩
  · exact SyncSmartLinkToEndpoints_descriptor self StartLocal EndLocal _ _
  · exact UpdateNavLinkNow_descriptor WITH_EDITOR self StartLocal EndLocal _ _
  · exact SnapEndToMagnitude_descriptor WITH_EDITOR self StartLocal EndLocal _ _
  · exact PostEditChangeProperty_descriptor SuperPostEdit hPostEdit self
      PropertyChangedEvent StartLocal EndLocal _ _
  · unfold OnConstruction
    rw [hOnConstruction]
    exact SyncSmartLinkToEndpoints_descriptor
      { SuperOnConstruction self with PointLinks := [] } StartLocal EndLocal _ _
  · unfold BeginPlay
    rw [hBeginPlay]
    exact SyncSmartLinkToEndpoints_descriptor
      { SuperBeginPlay self with PointLinks := [] } StartLocal EndLocal _ _
  · intro Start End hStart hEnd
    rw [SyncSmartLinkToEndpoints_of_markers
        { self with LinkStartLocal := StartLocal, LinkEndLocal := EndLocal } Start End
        hStart hEnd,
      SyncSmartLinkToEndpoints_of_markers self Start End hStart hEnd]
    exact ⟨rfl, rfl, rfl⟩

/-- C19 at the concrete actor, its descriptor replaced by ((1,2,3), (4,5,6)),
with a base class that does nothing: the snap from either start ends in the
same state, and the sync writes the marker positions (0,-50,0) and (7,50,9). -/
theorem descriptor_is_never_an_input_witness :
    { SnapEndToMagnitude true
          { Jump96Up with LinkStartLocal := ⟨1, 2, 3⟩, LinkEndLocal := ⟨4, 5, 6⟩ } with
        LinkStartLocal := (Jump96Up.SnapEndToMagnitude true).LinkStartLocal
        LinkEndLocal := (Jump96Up.SnapEndToMagnitude true).LinkEndLocal }
        = Jump96Up.SnapEndToMagnitude true
      ∧ (({ Jump96Up with LinkStartLocal := ⟨1, 2, 3⟩, LinkEndLocal := ⟨4, 5, 6⟩ } :
            ASmartLinkProxy).SyncSmartLinkToEndpoints).LinkStartLocal = ⟨0, -50, 0⟩
      ∧ (({ Jump96Up with LinkStartLocal := ⟨1, 2, 3⟩, LinkEndLocal := ⟨4, 5, 6⟩ } :
            ASmartLinkProxy).SyncSmartLinkToEndpoints).LinkEndLocal = ⟨7, 50, 9⟩ := by
  have h := descriptor_is_never_an_input true id id (fun _ s => s)
    (fun _ _ _ => rfl) (fun _ _ _ => rfl) (fun _ _ _ _ => rfl)
    Jump96Up ⟨1, 2, 3⟩ ⟨4, 5, 6⟩ ⟨none⟩
  have h2 := h.2.2.2.2.2.2 ⟨⟨0, -50, 0⟩, 1⟩ ⟨⟨7, 50, 9⟩, 1⟩ rfl rfl
  exact ⟨h.2.2.1, h2.1, h2.2.1⟩

/-- C20: `SnapEndToMagnitude` changes nothing but the end marker's position and
the derived link data. For every state, after the call the start marker and
`Magnitude`, `SnapMode`, `AcrossAxis`, `UnitsToCm`, `AcrossExtraCm`,
`bAutoSnapOnChange` are what they were; the fields that can differ are the end
marker, `LinkStartLocal`, `LinkEndLocal`, the consumer's link data, the legacy
list (emptied) and the record of calls. -/
theorem snap_frame (WITH_EDITOR : Bool) (self : ASmartLinkProxy) :
    (self.SnapEndToMagnitude WITH_EDITOR).StartArrow = self.StartArrow
      ∧ (self.SnapEndToMagnitude WITH_EDITOR).StartRel = self.StartRel
      ∧ (self.SnapEndToMagnitude WITH_EDITOR).Magnitude = self.Magnitude
      ∧ (self.SnapEndToMagnitude WITH_EDITOR).SnapMode = self.SnapMode
      ∧ (self.SnapEndToMagnitude WITH_EDITOR).AcrossAxis = self.AcrossAxis
      ∧ (self.SnapEndToMagnitude WITH_EDITOR).UnitsToCm = self.UnitsToCm
      ∧ (self.SnapEndToMagnitude WITH_EDITOR).AcrossExtraCm = self.AcrossExtraCm
      ∧ (self.SnapEndToMagnitude WITH_EDITOR).bAutoSnapOnChange = self.bAutoSnapOnChange
      ∧ { self.SnapEndToMagnitude WITH_EDITOR with
            EndArrow := self.EndArrow
            LinkStartLocal := self.LinkStartLocal
            LinkEndLocal := self.LinkEndLocal
            SmartLinkComp := self.SmartLinkComp
            PointLinks := self.PointLinks
            Trace := self.Trace } = self := by
  have hpos := GetCodUnitsFromMagnitude_pos self.Magnitude
  obtain ⟨⟨pl, comp, rel, tr⟩, sa, ea, mag, mode, axis, auto, u, extra, ls, le⟩ := self
  simp only at hpos
  by_cases hu : u ≤ 0 <;> cases sa <;> cases ea <;> cases mode <;> cases comp <;>
    cases WITH_EDITOR <;>
    simp [SnapEndToMagnitude, UpdateNavLinkNow, SyncSmartLinkToEndpoints, record,
      GetSmartLinkComp, StartRel, hu, not_le.mpr hpos]

/-- C21: every call of `SnapEndToMagnitude` first records `Modify` on the actor,
then on the start arrow if there is one, then on the end arrow if there is one,
before any guard is tested. On a call that stops at a guard (a marker missing,
`UnitsToCm <= 0`, `SnapMode = None`) these marks are all the call records. On a
call that passes the guards the three marks come first and the write to the end
marker comes right after them. -/
theorem snap_marks_modified_first :
    (∀ (WITH_EDITOR : Bool) (self : ASmartLinkProxy),
        ∃ rest : List Effect,
          (self.SnapEndToMagnitude WITH_EDITOR).Trace
            = self.Trace
              ++ ([Effect.Modify]
                ++ (if self.StartArrow.isSome then [Effect.StartArrowModify] else [])
                ++ (if self.EndArrow.isSome then [Effect.EndArrowModify] else []))
              ++ rest)
      ∧ (∀ (WITH_EDITOR : Bool) (self : ASmartLinkProxy),
          (self.UnitsToCm ≤ 0 ∨ self.SnapMode = ESnapMode.None
            ∨ self.StartArrow = none ∨ self.EndArrow = none) →
          (self.SnapEndToMagnitude WITH_EDITOR).Trace
            = self.Trace
              ++ ([Effect.Modify]
                ++ (if self.StartArrow.isSome then [Effect.StartArrowModify] else [])
                ++ (if self.EndArrow.isSome then [Effect.EndArrowModify] else [])))
      ∧ (∀ (WITH_EDITOR : Bool) (self : ASmartLinkProxy) (Start End : UArrowComponent),
          self.StartArrow = some Start → self.EndArrow = some End →
          0 < self.UnitsToCm → self.SnapMode ≠ ESnapMode.None →
          ∃ (NewEnd : FVector) (rest : List Effect),
            (self.SnapEndToMagnitude WITH_EDITOR).EndRel = some NewEnd
              ∧ (self.SnapEndToMagnitude WITH_EDITOR).Trace
                = self.Trace
                  ++ [Effect.Modify, Effect.StartArrowModify, Effect.EndArrowModify,
                      Effect.EndArrowSetRelativeLocation NewEnd]
                  ++ rest
              ∧ Effect.Modify ∉ rest ∧ Effect.StartArrowModify ∉ rest
              ∧ Effect.EndArrowModify ∉ rest
              ∧ ∀ p : FVector, Effect.EndArrowSetRelativeLocation p ∉ rest) := by
  have hAbort : ∀ (WITH_EDITOR : Bool) (self : ASmartLinkProxy),
      (self.UnitsToCm ≤ 0 ∨ self.SnapMode = ESnapMode.None
        ∨ self.StartArrow = none ∨ self.EndArrow = none) →
      (self.SnapEndToMagnitude WITH_EDITOR).Trace
        = self.Trace
          ++ ([Effect.Modify]
            ++ (if self.StartArrow.isSome then [Effect.StartArrowModify] else [])
            ++ (if self.EndArrow.isSome then [Effect.EndArrowModify] else [])) := by
    intro WITH_EDITOR self h
    rw [SnapEndToMagnitude_of_abort WITH_EDITOR self h]
    simp only [List.append_assoc]
  have hReady : ∀ (WITH_EDITOR : Bool) (self : ASmartLinkProxy)
      (Start End : UArrowComponent),
      self.StartArrow = some Start → self.EndArrow = some End →
      0 < self.UnitsToCm → self.SnapMode ≠ ESnapMode.None →
      ∃ (NewEnd : FVector) (rest : List Effect),
        (self.SnapEndToMagnitude WITH_EDITOR).EndRel = some NewEnd
          ∧ (self.SnapEndToMagnitude WITH_EDITOR).Trace
            = self.Trace
              ++ [Effect.Modify, Effect.StartArrowModify, Effect.EndArrowModify,
                  Effect.EndArrowSetRelativeLocation NewEnd]
              ++ rest
          ∧ Effect.Modify ∉ rest ∧ Effect.StartArrowModify ∉ rest
          ∧ Effect.EndArrowModify ∉ rest
          ∧ ∀ p : FVector, Effect.EndArrowSetRelativeLocation p ∉ rest := by
    intro WITH_EDITOR self Start End hStart hEnd hUnits hMode
    obtain ⟨NewEnd, hSnap⟩ := SnapEndToMagnitude_of_ready_exists WITH_EDITOR self Start End
      hStart hEnd hUnits hMode
    refine ⟨NewEnd,
      (if self.SmartLinkComp.isSome then
          [Effect.SetLinkData Start.RelativeLocation NewEnd ENavLinkDirection.BothWays]
        else [])
        ++ (if WITH_EDITOR then [Effect.MarkComponentsRenderStateDirty] else []), ?_⟩
    rw [hSnap]
    obtain ⟨⟨pl, comp, rel, tr⟩, sa, ea, mag, mode, axis, auto, u, extra, ls, le⟩ := self
    simp only at hStart hEnd
    subst hStart hEnd
    cases comp <;> cases WITH_EDITOR <;>
      simp [UpdateNavLinkNow, SyncSmartLinkToEndpoints, GetSmartLinkComp, record, EndRel,
        UArrowComponent.GetRelativeLocation]
  refine ⟨?_, hAbort, hReady⟩
  intro WITH_EDITOR self
  by_cases h : self.UnitsToCm ≤ 0 ∨ self.SnapMode = ESnapMode.None
      ∨ self.StartArrow = none ∨ self.EndArrow = none
  · exact ⟨[], by rw [hAbort WITH_EDITOR self h, List.append_nil]⟩
  · simp only [not_or, not_le] at h
    obtain ⟨hUnits, hMode, hStart, hEnd⟩ := h
    obtain ⟨Start, hStart⟩ := Option.ne_none_iff_exists'.mp hStart
    obtain ⟨End, hEnd⟩ := Option.ne_none_iff_exists'.mp hEnd
    obtain ⟨NewEnd, rest, -, hTrace, -⟩ := hReady WITH_EDITOR self Start End hStart hEnd
      hUnits hMode
    refine ⟨Effect.EndArrowSetRelativeLocation NewEnd :: rest, ?_⟩
    rw [hTrace, hStart, hEnd]
    simp

/-- The end marker after a snap that passes every guard, by snap mode. -/
theorem SnapEndToMagnitude_EndRel (WITH_EDITOR : Bool) (self : ASmartLinkProxy)
    (Start End : UArrowComponent)
    (hStart : self.StartArrow = some Start) (hEnd : self.EndArrow = some End)
    (hUnits : 0 < self.UnitsToCm) (hMode : self.SnapMode ≠ ESnapMode.None) :
    (self.SnapEndToMagnitude WITH_EDITOR).EndRel
      = some
        (match self.SnapMode with
         | ESnapMode.None => Start.RelativeLocation
         | ESnapMode.Up =>
           { Start.RelativeLocation with
             Z := Start.RelativeLocation.Z
               + GetCodUnitsFromMagnitude self.Magnitude * self.UnitsToCm }
         | ESnapMode.Down =>
           { Start.RelativeLocation with
             Z := Start.RelativeLocation.Z
               - GetCodUnitsFromMagnitude self.Magnitude * self.UnitsToCm }
         | ESnapMode.Across =>
           Start.RelativeLocation + self.GetAcrossOffsetRelative
             (GetCodUnitsFromMagnitude self.Magnitude * self.UnitsToCm
               + self.AcrossExtraCm)) := by
  rw [SnapEndToMagnitude_of_ready WITH_EDITOR self Start End hStart hEnd hUnits hMode]
  simp [EndRel, (UpdateNavLinkNow_frame WITH_EDITOR _).2.1,
    UArrowComponent.GetRelativeLocation]

/-- C24: with both markers present and no smart-link component,
`SyncSmartLinkToEndpoints` still empties `PointLinks` and writes the marker
positions into `LinkStartLocal` / `LinkEndLocal`; it changes nothing else and
records no call. For every state, the sync records a `SetLinkData` call if and
only if the start marker, the end marker and the component are all present. -/
theorem sync_without_component :
    (∀ (self : ASmartLinkProxy) (Start End : UArrowComponent),
        self.StartArrow = some Start → self.EndArrow = some End →
        self.SmartLinkComp = none →
        self.SyncSmartLinkToEndpoints
            = { self with
                PointLinks := []
                LinkStartLocal := Start.RelativeLocation
                LinkEndLocal := End.RelativeLocation }
          ∧ self.SyncSmartLinkToEndpoints.PointLinks = []
          ∧ self.SyncSmartLinkToEndpoints.LinkStartLocal = Start.RelativeLocation
          ∧ self.SyncSmartLinkToEndpoints.LinkEndLocal = End.RelativeLocation
          ∧ self.SyncSmartLinkToEndpoints.SmartLinkComp = none
          ∧ self.SyncSmartLinkToEndpoints.Trace = self.Trace)
      ∧ (∀ self : ASmartLinkProxy,
          ∃ added : List Effect,
            self.SyncSmartLinkToEndpoints.Trace = self.Trace ++ added
              ∧ ((∃ (RelativeStart RelativeEnd : FVector) (Direction : ENavLinkDirection),
                    Effect.SetLinkData RelativeStart RelativeEnd Direction ∈ added)
                ↔ (self.StartArrow ≠ none ∧ self.EndArrow ≠ none
                    ∧ self.SmartLinkComp ≠ none))) := by
  constructor
  · intro self Start End hStart hEnd hComp
    rw [SyncSmartLinkToEndpoints_of_markers self Start End hStart hEnd]
    simp [hComp]
  · intro self
    refine ⟨_, SyncSmartLinkToEndpoints_Trace self, ?_⟩
    cases self.StartArrow <;> cases self.EndArrow <;> cases self.SmartLinkComp <;> simp

/-- C15: after a snap that passes its guards (both markers present,
`UnitsToCm > 0`, snap mode `Up`, `Down` or `Across`) with the smart-link
component present, let `NewEnd` be the position the snap computes from the start
marker: `Z` raised by `GetCodUnitsFromMagnitude Magnitude * UnitsToCm` for `Up`,
lowered by it for `Down`, the start marker plus the across offset for `Across`.
Then the end marker is at `NewEnd`, the start marker has not moved,
`LinkStartLocal` is the start marker's position, `LinkEndLocal` is `NewEnd`, the
component holds (start, `NewEnd`, BothWays), and the record of calls gained, in
this order, the three modification marks, the move of the end marker to
`NewEnd`, `SetLinkData (start, NewEnd, BothWays)` and, in an editor build, the
render refresh. Where the end marker was before the call plays no part. -/
theorem snap_resyncs_to_new_end (WITH_EDITOR : Bool) (self : ASmartLinkProxy)
    (Start End : UArrowComponent) (Comp : UNavLinkCustomComponent) (NewEnd : FVector)
    (hStart : self.StartArrow = some Start) (hEnd : self.EndArrow = some End)
    (hComp : self.SmartLinkComp = some Comp)
    (hUnits : 0 < self.UnitsToCm) (hMode : self.SnapMode ≠ ESnapMode.None)
    (hNewEnd : NewEnd
      = match self.SnapMode with
        | ESnapMode.None => Start.RelativeLocation
        | ESnapMode.Up =>
          ⟨Start.RelativeLocation.X, Start.RelativeLocation.Y,
            Start.RelativeLocation.Z
              + GetCodUnitsFromMagnitude self.Magnitude * self.UnitsToCm⟩
        | ESnapMode.Down =>
          ⟨Start.RelativeLocation.X, Start.RelativeLocation.Y,
            Start.RelativeLocation.Z
              - GetCodUnitsFromMagnitude self.Magnitude * self.UnitsToCm⟩
        | ESnapMode.Across =>
          Start.RelativeLocation + self.GetAcrossOffsetRelative
            (GetCodUnitsFromMagnitude self.Magnitude * self.UnitsToCm
              + self.AcrossExtraCm)) :
    (self.SnapEndToMagnitude WITH_EDITOR).EndArrow
        = some { End with RelativeLocation := NewEnd }
      ∧ (self.SnapEndToMagnitude WITH_EDITOR).EndRel = some NewEnd
      ∧ (self.SnapEndToMagnitude WITH_EDITOR).StartRel = some Start.RelativeLocation
      ∧ (self.SnapEndToMagnitude WITH_EDITOR).LinkStartLocal = Start.RelativeLocation
      ∧ (self.SnapEndToMagnitude WITH_EDITOR).LinkEndLocal = NewEnd
      ∧ (self.SnapEndToMagnitude WITH_EDITOR).SmartLinkComp
          = some
            { Comp with
              LinkRelativeStart := Start.RelativeLocation
              LinkRelativeEnd := NewEnd
              LinkDirection := ENavLinkDirection.BothWays }
      ∧ (self.SnapEndToMagnitude WITH_EDITOR).Trace
          = self.Trace ++
            [Effect.Modify, Effect.StartArrowModify, Effect.EndArrowModify,
             Effect.EndArrowSetRelativeLocation NewEnd,
             Effect.SetLinkData Start.RelativeLocation NewEnd ENavLinkDirection.BothWays]
            ++ (if WITH_EDITOR then [Effect.MarkComponentsRenderStateDirty] else []) := by
  rw [SnapEndToMagnitude_of_ready WITH_EDITOR self Start End hStart hEnd hUnits hMode]
  obtain ⟨⟨pl, comp, rel, tr⟩, sa, ea, mag, mode, axis, auto, u, extra, ls, le⟩ := self
  simp only at hStart hEnd hComp hMode hNewEnd
  subst hStart hEnd hComp
  cases mode <;> cases WITH_EDITOR <;>
    simp_all [UpdateNavLinkNow, SyncSmartLinkToEndpoints, GetSmartLinkComp, record, EndRel,
      StartRel, UArrowComponent.GetRelativeLocation, UNavLinkCustomComponent.SetLinkData]

/-- C15 at the concrete actor (start marker (0,-50,0), end marker (7,50,9),
Jump96, 2.54, `Up`, descriptor and component out of date): end marker,
`LinkEndLocal` and the component's end all become (0,-50,243.84), not (7,50,9),
and `SetLinkData ((0,-50,0), (0,-50,243.84), BothWays)` follows the move in the
record. -/
theorem snap_resyncs_to_new_end_witness :
    (Jump96Up.SnapEndToMagnitude true).EndRel = some ⟨0, -50, 24384 / 100⟩
      ∧ (Jump96Up.SnapEndToMagnitude true).LinkStartLocal = ⟨0, -50, 0⟩
      ∧ (Jump96Up.SnapEndToMagnitude true).LinkEndLocal = ⟨0, -50, 24384 / 100⟩
      ∧ (Jump96Up.SnapEndToMagnitude true).SmartLinkComp
          = some ⟨⟨0, -50, 0⟩, ⟨0, -50, 24384 / 100⟩, ENavLinkDirection.BothWays, true⟩
      ∧ (Jump96Up.SnapEndToMagnitude true).Trace
          = [Effect.Modify, Effect.StartArrowModify, Effect.EndArrowModify,
             Effect.EndArrowSetRelativeLocation ⟨0, -50, 24384 / 100⟩,
             Effect.SetLinkData ⟨0, -50, 0⟩ ⟨0, -50, 24384 / 100⟩
               ENavLinkDirection.BothWays,
             Effect.MarkComponentsRenderStateDirty] := by
  have h := snap_resyncs_to_new_end true Jump96Up ⟨⟨0, -50, 0⟩, 1⟩ ⟨⟨7, 50, 9⟩, 1⟩
    ⟨⟨0, 0, 0⟩, ⟨0, 0, 0⟩, ENavLinkDirection.LeftToRight, true⟩ ⟨0, -50, 24384 / 100⟩
    rfl rfl rfl (by norm_num [Jump96Up]) (by simp [Jump96Up])
    (by norm_num [Jump96Up, GetCodUnitsFromMagnitude])
  exact ⟨h.2.1, h.2.2.2.1, h.2.2.2.2.1, h.2.2.2.2.2.1, h.2.2.2.2.2.2⟩

/-- C18, as stated, fails: on the actor with arrows at (0,-50,0) and (7,50,9)
whose `LinkStartLocal` has been edited to (1,2,3), `PostEditChangeProperty` for
the property `LinkStartLocal` hands the consumer
`SetLinkData ((0,-50,0), (7,50,9), BothWays)`: the edited value (1,2,3) is in no
call, the component's start is (0,-50,0), and `LinkStartLocal` is (0,-50,0)
again. -/
theorem endpoint_edit_not_handed_over :
    ({ Jump96Up with LinkStartLocal := ⟨1, 2, 3⟩ } : ASmartLinkProxy).LinkStartLocal
        = ⟨1, 2, 3⟩
      ∧ (PostEditChangeProperty (fun _ s => s) { Jump96Up with LinkStartLocal := ⟨1, 2, 3⟩ }
            ⟨some ⟨"LinkStartLocal"⟩⟩).Trace
          = [Effect.SetLinkData ⟨0, -50, 0⟩ ⟨7, 50, 9⟩ ENavLinkDirection.BothWays,
             Effect.MarkComponentsRenderStateDirty]
      ∧ (∀ (RelativeEnd : FVector) (Direction : ENavLinkDirection),
          Effect.SetLinkData ⟨1, 2, 3⟩ RelativeEnd Direction
            ∉ (PostEditChangeProperty (fun _ s => s)
                { Jump96Up with LinkStartLocal := ⟨1, 2, 3⟩ }
                ⟨some ⟨"LinkStartLocal"⟩⟩).Trace)
      ∧ (PostEditChangeProperty (fun _ s => s) { Jump96Up with LinkStartLocal := ⟨1, 2, 3⟩ }
            ⟨some ⟨"LinkStartLocal"⟩⟩).SmartLinkComp
          = some ⟨⟨0, -50, 0⟩, ⟨7, 50, 9⟩, ENavLinkDirection.BothWays, true⟩
      ∧ (PostEditChangeProperty (fun _ s => s) { Jump96Up with LinkStartLocal := ⟨1, 2, 3⟩ }
            ⟨some ⟨"LinkStartLocal"⟩⟩).LinkStartLocal = ⟨0, -50, 0⟩ := by
  have hEq : PostEditChangeProperty (fun _ s => s)
      { Jump96Up with LinkStartLocal := ⟨1, 2, 3⟩ } ⟨some ⟨"LinkStartLocal"⟩⟩
        = UpdateNavLinkNow true
            { ({ Jump96Up with LinkStartLocal := ⟨1, 2, 3⟩ } : ASmartLinkProxy) with
              PointLinks := [] } := by
    rw [PostEditChangeProperty_eq]
    exact if_pos (Or.inl rfl)
  rw [hEq]
  refine ⟨rfl, ?_, ?_, ?_, ?_⟩
  · simp [UpdateNavLinkNow, record, SyncSmartLinkToEndpoints, GetSmartLinkComp, Jump96Up,
      UArrowComponent.GetRelativeLocation]
  · intro RelativeEnd Direction
    simp [UpdateNavLinkNow, record, SyncSmartLinkToEndpoints, GetSmartLinkComp, Jump96Up,
      UArrowComponent.GetRelativeLocation]
  · simp [UpdateNavLinkNow, record, SyncSmartLinkToEndpoints, GetSmartLinkComp, Jump96Up,
      UArrowComponent.GetRelativeLocation, UNavLinkCustomComponent.SetLinkData]
  · simp [UpdateNavLinkNow, record, SyncSmartLinkToEndpoints, GetSmartLinkComp, Jump96Up,
      UArrowComponent.GetRelativeLocation]

/-- C18, amended: the arrows are the endpoints and `LinkStartLocal` /
`LinkEndLocal` mirror them. When `PostEditChangeProperty` runs for the property
`LinkStartLocal` or `LinkEndLocal` with both arrows and the component present,
the link data handed to the consumer is (start arrow position, end arrow
position, BothWays), the component holds it, and both fields are overwritten
with the arrow positions, whatever they held. -/
theorem endpoint_edit_resyncs_from_arrows
    (Super : FPropertyChangedEvent → ASmartLinkProxy → ASmartLinkProxy)
    (self : ASmartLinkProxy) (PropertyChangedEvent : FPropertyChangedEvent)
    (Start End : UArrowComponent) (Comp : UNavLinkCustomComponent)
    (hName : PropertyChangedEvent.PropName = "LinkStartLocal"
      ∨ PropertyChangedEvent.PropName = "LinkEndLocal")
    (hStart : (Super PropertyChangedEvent self).StartArrow = some Start)
    (hEnd : (Super PropertyChangedEvent self).EndArrow = some End)
    (hComp : (Super PropertyChangedEvent self).SmartLinkComp = some Comp) :
    (PostEditChangeProperty Super self PropertyChangedEvent).Trace
        = (Super PropertyChangedEvent self).Trace ++
          [Effect.SetLinkData Start.RelativeLocation End.RelativeLocation
            ENavLinkDirection.BothWays,
           Effect.MarkComponentsRenderStateDirty]
      ∧ (PostEditChangeProperty Super self PropertyChangedEvent).SmartLinkComp
          = some
            { Comp with
              LinkRelativeStart := Start.RelativeLocation
              LinkRelativeEnd := End.RelativeLocation
              LinkDirection := ENavLinkDirection.BothWays }
      ∧ (PostEditChangeProperty Super self PropertyChangedEvent).LinkStartLocal
          = Start.RelativeLocation
      ∧ (PostEditChangeProperty Super self PropertyChangedEvent).LinkEndLocal
          = End.RelativeLocation
      ∧ (PostEditChangeProperty Super self PropertyChangedEvent).StartArrow = some Start
      ∧ (PostEditChangeProperty Super self PropertyChangedEvent).EndArrow = some End := by
  rw [PostEditChangeProperty_eq, if_pos hName]
  generalize Super PropertyChangedEvent self = t at hStart hEnd hComp ⊢
  obtain ⟨⟨pl, comp, rel, tr⟩, sa, ea, mag, mode, axis, auto, u, extra, ls, le⟩ := t
  simp only at hStart hEnd hComp
  subst hStart hEnd hComp
  simp [UpdateNavLinkNow, record, SyncSmartLinkToEndpoints, GetSmartLinkComp,
    UArrowComponent.GetRelativeLocation, UNavLinkCustomComponent.SetLinkData]

/-- C18, amended, at the concrete actor whose `LinkEndLocal` was edited to
(4,5,6): the consumer is handed the arrow positions (0,-50,0) and (7,50,9) and
`LinkEndLocal` becomes (7,50,9). -/
theorem endpoint_edit_resyncs_from_arrows_witness :
    (PostEditChangeProperty (fun _ s => s) { Jump96Up with LinkEndLocal := ⟨4, 5, 6⟩ }
          ⟨some ⟨"LinkEndLocal"⟩⟩).Trace
        = [Effect.SetLinkData ⟨0, -50, 0⟩ ⟨7, 50, 9⟩ ENavLinkDirection.BothWays,
           Effect.MarkComponentsRenderStateDirty]
      ∧ (PostEditChangeProperty (fun _ s => s) { Jump96Up with LinkEndLocal := ⟨4, 5, 6⟩ }
            ⟨some ⟨"LinkEndLocal"⟩⟩).LinkEndLocal = ⟨7, 50, 9⟩ := by
  have h := endpoint_edit_resyncs_from_arrows (fun _ s => s)
    { Jump96Up with LinkEndLocal := ⟨4, 5, 6⟩ } ⟨some ⟨"LinkEndLocal"⟩⟩
    ⟨⟨0, -50, 0⟩, 1⟩ ⟨⟨7, 50, 9⟩, 1⟩
    ⟨⟨0, 0, 0⟩, ⟨0, 0, 0⟩, ENavLinkDirection.LeftToRight, true⟩ (Or.inr rfl) rfl rfl rfl
  exact ⟨h.1, h.2.2.2.1⟩

end ASmartLinkProxy

namespace Roomba

/-- Membership in the result of a loop that only ever appends: an element is in
the final list when it was there at the start or one round added it. -/
theorem mem_foldl_of_step {α β : Type} (f : List β → α → List β) (step : α → Prop)
    (y : β) (h : ∀ (acc : List β) (a : α), y ∈ f acc a ↔ y ∈ acc ∨ step a)
    (l : List α) (init : List β) :
    y ∈ l.foldl f init ↔ y ∈ init ∨ ∃ a : α, a ∈ l ∧ step a := by
  induction l generalizing init with
  | nil => simp
  | cons head tail ih =>
    rw [List.foldl_cons, ih, h]
    simp only [List.mem_cons, exists_eq_or_imp, or_assoc]

/-- Membership in a set after `TSetAdd`. -/
theorem mem_TSetAdd (Set : List UStaticMesh) (Mesh x : UStaticMesh) :
    x ∈ TSetAdd Set Mesh ↔ x ∈ Set ∨ x = Mesh := by
  unfold TSetAdd
  split_ifs with h
  · constructor
    · exact Or.inl
    · rintro (h1 | h1)
      · exact h1
      · exact h1 ▸ h
  · simp

/-- The used set: the meshes assigned to a static-mesh component of an actor of
the editor world's current level, added to what the set held. -/
theorem mem_GetUsedStaticMeshesInLevel (World : Option UWorld) (Out : List UStaticMesh)
    (x : UStaticMesh) :
    x ∈ GetUsedStaticMeshesInLevel World Out
      ↔ x ∈ Out
        ∨ ∃ (TheWorld : UWorld) (Actor : AActor) (Component : UStaticMeshComponent),
            World = some TheWorld ∧ some Actor ∈ TheWorld.GetCurrentLevel.Actors
              ∧ some Component ∈ Actor.StaticMeshComponents
              ∧ Component.GetStaticMesh = some x := by
  cases World with
  | none => simp [GetUsedStaticMeshesInLevel]
  | some TheWorld =>
    unfold GetUsedStaticMeshesInLevel
    simp only
    rw [mem_foldl_of_step _
      (fun Actor : Option AActor =>
        ∃ (TheActor : AActor) (Component : UStaticMeshComponent),
          Actor = some TheActor ∧ some Component ∈ TheActor.StaticMeshComponents
            ∧ Component.GetStaticMesh = some x)]
    · constructor
      · rintro (h | ⟨_, hMem, a, c, rfl, hc, hx⟩)
        · exact Or.inl h
        · exact Or.inr ⟨TheWorld, a, c, rfl, hMem, hc, hx⟩
      · rintro (h | ⟨w, a, c, hw, ha, hc, hx⟩)
        · exact Or.inl h
        · cases hw
          exact Or.inr ⟨some a, ha, a, c, rfl, hc, hx⟩
    · intro acc Actor
      cases Actor with
      | none => simp
      | some TheActor =>
        simp only
        rw [mem_foldl_of_step _
          (fun Component : Option UStaticMeshComponent =>
            ∃ TheComponent : UStaticMeshComponent,
              Component = some TheComponent ∧ TheComponent.GetStaticMesh = some x)]
        · constructor
          · rintro (h | ⟨_, hMem, c, rfl, hx⟩)
            · exact Or.inl h
            · exact Or.inr ⟨TheActor, c, rfl, hMem, hx⟩
          · rintro (h | ⟨a, c, ha, hc, hx⟩)
            · exact Or.inl h
            · cases ha
              exact Or.inr ⟨some c, hc, c, rfl, hx⟩
        · intro acc2 Component
          cases Component with
          | none => simp
          | some TheComponent =>
            cases hMesh : TheComponent.GetStaticMesh with
            | none => simp [hMesh]
            | some Mesh =>
              simp only [hMesh, mem_TSetAdd, Option.some.injEq, exists_eq_left']
              constructor
              · rintro (h | h)
                · exact Or.inl h
                · exact Or.inr h.symm
              · rintro (h | h)
                · exact Or.inl h
                · exact Or.inr h.symm

/-- The deletions of the sweep with a non-empty target folder: the meshes that
an asset of the registry's answer loads as, less the used set. -/
theorem mem_DeleteUnusedMeshes (GetAssets : FARFilter → List FAssetData)
    (World : Option UWorld) (TargetFolder : String) (hFolder : TargetFolder.isEmpty = false)
    (x : UStaticMesh) :
    Call.DeleteAssets x ∈ DeleteUnusedMeshes GetAssets World TargetFolder
      ↔ (∃ AssetData : FAssetData,
            AssetData ∈ GetAllStaticMeshesInFolder GetAssets TargetFolder []
              ∧ CastUStaticMesh AssetData.GetAsset = some x)
          ∧ x ∉ GetUsedStaticMeshesInLevel World [] := by
  unfold DeleteUnusedMeshes
  simp only [hFolder, Bool.false_eq_true, if_false]
  split_ifs with hNum
  · rw [List.length_eq_zero] at hNum
    simp [hNum]
  · simp only [List.mem_append, List.mem_singleton, reduceCtorEq, or_false]
    rw [mem_foldl_of_step _
      (fun AssetData : FAssetData =>
        CastUStaticMesh AssetData.GetAsset = some x
          ∧ x ∉ GetUsedStaticMeshesInLevel World [])]
    · simp only [List.mem_singleton, reduceCtorEq, false_or]
      constructor
      · rintro ⟨a, ha, hx, hu⟩
        exact ⟨⟨a, ha, hx⟩, hu⟩
      · rintro ⟨⟨a, ha, hx⟩, hu⟩
        exact ⟨a, ha, hx, hu⟩
    · intro acc AssetData
      cases hCast : CastUStaticMesh AssetData.GetAsset with
      | none => simp
      | some Mesh =>
        by_cases hUsed : Mesh ∈ GetUsedStaticMeshesInLevel World []
        · simp only [hUsed, not_true_eq_false, if_false, List.mem_append,
            List.mem_singleton, reduceCtorEq, or_false, Option.some.injEq]
          constructor
          · exact Or.inl
          · rintro (h | ⟨h1, h2⟩)
            · exact h
            · exact absurd (h1 ▸ hUsed) h2
        · simp only [hUsed, not_false_eq_true, if_true, List.mem_append,
            List.mem_singleton, List.mem_cons, reduceCtorEq, or_false, false_or,
            Call.DeleteAssets.injEq, Option.some.injEq, List.not_mem_nil]
          constructor
          · rintro (h | h)
            · exact Or.inl h
            · exact Or.inr ⟨h.symm, h ▸ hUsed⟩
          · rintro (h | ⟨h, _⟩)
            · exact Or.inl h
            · exact Or.inr h.symm

/-- C25: `DeleteUnusedMeshes` never hands to `ObjectTools::DeleteAssets` a static
mesh that is assigned to a static-mesh component of an actor in the editor
world's current level. The used set collected by `GetUsedStaticMeshesInLevel` is
exactly the set of such meshes. For a non-empty target folder the meshes deleted
are exactly those that an asset returned by the registry (for that folder,
recursively, class static mesh) loads as, less the used set; for an empty target
folder nothing is deleted; with no editor world the used set is empty and every
mesh the registry's assets load as is deleted. -/
theorem roomba_deletes_exactly_unused (GetAssets : FARFilter → List FAssetData)
    (World : Option UWorld) (TargetFolder : String) :
    (∀ Mesh : UStaticMesh,
        Mesh ∈ GetUsedStaticMeshesInLevel World []
          ↔ ∃ (TheWorld : UWorld) (Actor : AActor) (Component : UStaticMeshComponent),
              World = some TheWorld ∧ some Actor ∈ TheWorld.GetCurrentLevel.Actors
                ∧ some Component ∈ Actor.StaticMeshComponents
                ∧ Component.GetStaticMesh = some Mesh)
      ∧ (∀ (TheWorld : UWorld) (Actor : AActor) (Component : UStaticMeshComponent)
          (Mesh : UStaticMesh),
          World = some TheWorld → some Actor ∈ TheWorld.GetCurrentLevel.Actors →
          some Component ∈ Actor.StaticMeshComponents →
          Component.GetStaticMesh = some Mesh →
          Call.DeleteAssets Mesh ∉ DeleteUnusedMeshes GetAssets World TargetFolder)
      ∧ (TargetFolder.isEmpty = false →
          ∀ Mesh : UStaticMesh,
            Call.DeleteAssets Mesh ∈ DeleteUnusedMeshes GetAssets World TargetFolder
              ↔ (∃ AssetData : FAssetData,
                    AssetData ∈ GetAssets ⟨[TargetFolder], [UStaticMesh.ClassPathName], true⟩
                      ∧ CastUStaticMesh AssetData.GetAsset = some Mesh)
                  ∧ Mesh ∉ GetUsedStaticMeshesInLevel World [])
      ∧ (TargetFolder.isEmpty = true →
          ∀ Mesh : UStaticMesh,
            Call.DeleteAssets Mesh ∉ DeleteUnusedMeshes GetAssets World TargetFolder)
      ∧ (World = none →
          GetUsedStaticMeshesInLevel World [] = []
            ∧ (TargetFolder.isEmpty = false →
                ∀ Mesh : UStaticMesh,
                  Call.DeleteAssets Mesh ∈ DeleteUnusedMeshes GetAssets World TargetFolder
                    ↔ ∃ AssetData : FAssetData,
                        AssetData ∈
                            GetAssets ⟨[TargetFolder], [UStaticMesh.ClassPathName], true⟩
                          ∧ CastUStaticMesh AssetData.GetAsset = some Mesh)) := by
  have hUsed : ∀ Mesh : UStaticMesh,
      Mesh ∈ GetUsedStaticMeshesInLevel World []
        ↔ ∃ (TheWorld : UWorld) (Actor : AActor) (Component : UStaticMeshComponent),
            World = some TheWorld ∧ some Actor ∈ TheWorld.GetCurrentLevel.Actors
              ∧ some Component ∈ Actor.StaticMeshComponents
              ∧ Component.GetStaticMesh = some Mesh := by
    intro Mesh
    rw [mem_GetUsedStaticMeshesInLevel]
    simp
  have hEmpty : TargetFolder.isEmpty = true →
      ∀ Mesh : UStaticMesh,
        Call.DeleteAssets Mesh ∉ DeleteUnusedMeshes GetAssets World TargetFolder := by
    intro hFolder Mesh
    simp [DeleteUnusedMeshes, hFolder]
  have hFilter : GetAllStaticMeshesInFolder GetAssets TargetFolder []
      = GetAssets ⟨[TargetFolder], [UStaticMesh.ClassPathName], true⟩ := by
    simp [GetAllStaticMeshesInFolder]
  have hExact : TargetFolder.isEmpty = false →
      ∀ Mesh : UStaticMesh,
        Call.DeleteAssets Mesh ∈ DeleteUnusedMeshes GetAssets World TargetFolder
          ↔ (∃ AssetData : FAssetData,
                AssetData ∈ GetAssets ⟨[TargetFolder], [UStaticMesh.ClassPathName], true⟩
                  ∧ CastUStaticMesh AssetData.GetAsset = some Mesh)
              ∧ Mesh ∉ GetUsedStaticMeshesInLevel World [] := by
    intro hFolder Mesh
    rw [mem_DeleteUnusedMeshes GetAssets World TargetFolder hFolder, hFilter]
  refine ⟨hUsed, ?_, hExact, hEmpty, ?_⟩
  · intro TheWorld Actor Component Mesh hWorld hActor hComponent hMesh hDeleted
    cases hFolder : TargetFolder.isEmpty with
    | true => exact hEmpty hFolder Mesh hDeleted
    | false =>
      exact ((hExact hFolder Mesh).mp hDeleted).2
        ((hUsed Mesh).mpr ⟨TheWorld, Actor, Component, hWorld, hActor, hComponent, hMesh⟩)
  · intro hWorld
    have hNone : GetUsedStaticMeshesInLevel World [] = [] := by
      rw [hWorld]
      rfl
    refine ⟨hNone, ?_⟩
    intro hFolder Mesh
    rw [hExact hFolder Mesh, hNone]
    simp

/-- C25 at the example registry and world, target folder `/Game/Props`: mesh `A`
is deleted, mesh `B`, which the level uses, is not. -/
theorem roomba_deletes_exactly_unused_witness :
    Call.DeleteAssets ⟨"A"⟩
        ∈ DeleteUnusedMeshes ExampleGetAssets (some ExampleWorld) "/Game/Props"
      ∧ Call.DeleteAssets ⟨"B"⟩
        ∉ DeleteUnusedMeshes ExampleGetAssets (some ExampleWorld) "/Game/Props" := by
  have h := roomba_deletes_exactly_unused ExampleGetAssets (some ExampleWorld) "/Game/Props"
  refine ⟨?_, ?_⟩
  · refine (h.2.2.1 (by decide) ⟨"A"⟩).mpr ⟨?_, ?_⟩
    · exact ⟨⟨"/Game/Props", "A", some (UObject.StaticMesh ⟨"A"⟩)⟩, by decide, rfl⟩
    · decide
  · exact h.2.1 ExampleWorld ⟨[some ⟨some ⟨"B"⟩⟩, none, some ⟨none⟩, some ⟨some ⟨"B"⟩⟩]⟩
      ⟨some ⟨"B"⟩⟩ ⟨"B"⟩ rfl (by decide) (by decide) rfl

end Roomba

namespace IEEE

/-- The spacing of the format around `q`, once the binade of `q` is known. -/
theorem ulp_eq (F : Format) (q : ℚ) (e : ℤ) (hlo : (2 : ℚ) ^ e ≤ |q|)
    (hhi : |q| < (2 : ℚ) ^ (e + 1)) (hEmin : F.Emin ≤ e) :
    F.ulp q = 2 ^ (e - (F.Precision - 1)) := by
  have hpos : (0 : ℚ) < |q| := lt_of_lt_of_le (by positivity) hlo
  have h1 : e ≤ Int.log 2 |q| :=
    (Int.zpow_le_iff_le_log (b := 2) (by norm_num) hpos (x := e)).mp (by exact_mod_cast hlo)
  have h2 : Int.log 2 |q| < e + 1 :=
    (Int.lt_zpow_iff_log_lt (b := 2) (by norm_num) hpos (x := e + 1)).mp
      (by exact_mod_cast hhi)
  have h3 : Int.log 2 |q| = e := by omega
  unfold Format.ulp
  rw [h3, max_eq_left hEmin]

/-- Rounding to an integer, once the floor is known. -/
theorem roundTiesToEven_of_floor (x : ℚ) (f : ℤ) (hf : ⌊x⌋ = f) :
    roundTiesToEven x
      = if x - f < 1 / 2 then f
        else if 1 / 2 < x - f then f + 1
        else if f % 2 = 0 then f
        else f + 1 := by
  subst hf
  rfl

/-- Rounding in a format, once the binade of `q` and the rounded significand are
known and the result is in range. -/
theorem round_eq (F : Format) (q : ℚ) (e m : ℤ) (hq : q ≠ 0) (hlo : (2 : ℚ) ^ e ≤ |q|)
    (hhi : |q| < (2 : ℚ) ^ (e + 1)) (hEmin : F.Emin ≤ e)
    (hm : roundTiesToEven (q / 2 ^ (e - (F.Precision - 1))) = m)
    (hfin : |(m : ℚ) * 2 ^ (e - (F.Precision - 1))| < 2 ^ (F.Emax + 1)) :
    F.round q = Value.Finite (m * 2 ^ (e - (F.Precision - 1))) := by
  unfold Format.round
  rw [ulp_eq F q e hlo hhi hEmin, hm, if_neg hq, if_neg (not_le.mpr hfin)]

/-- In `float`, 96 is exact. -/
theorem binary32_round_96 : binary32.round 96 = Value.Finite 96 := by
  have h := round_eq binary32 96 6 (96 * 2 ^ 17) (by norm_num) (by norm_num [abs_of_pos])
    (by norm_num [abs_of_pos]) (by norm_num [binary32])
    (by
      rw [roundTiesToEven_of_floor _ (96 * 2 ^ 17) (by
        rw [Int.floor_eq_iff]
        norm_num [binary32])]
      norm_num [binary32])
    (by norm_num [binary32, abs_of_pos])
  rw [h]
  norm_num [binary32]

/-- In `float`, 96 times `2.54f` is exact: 7990149 / 2^15, the `float` nearest to
243.84. -/
theorem binary32_round_base : binary32.round (96 * (2663383 / 2 ^ 20))
    = Value.Finite (7990149 / 2 ^ 15) := by
  have h := round_eq binary32 (96 * (2663383 / 2 ^ 20)) 7 15980298 (by norm_num)
    (by norm_num [abs_of_pos]) (by norm_num [abs_of_pos]) (by norm_num [binary32])
    (by
      rw [roundTiesToEven_of_floor _ 15980298 (by
        rw [Int.floor_eq_iff]
        norm_num [binary32])]
      norm_num [binary32])
    (by norm_num [binary32, abs_of_pos])
  rw [h]
  norm_num [binary32]

/-- In `double`, 2^60 + 96 rounds down to 2^60: the spacing there is 256. -/
theorem binary64_round_high_plus : binary64.round (2 ^ 60 + 96) = Value.Finite (2 ^ 60) := by
  have h := round_eq binary64 (2 ^ 60 + 96) 60 (2 ^ 52) (by norm_num)
    (by norm_num [abs_of_pos]) (by norm_num [abs_of_pos]) (by norm_num [binary64])
    (by
      rw [roundTiesToEven_of_floor _ (2 ^ 52) (by
        rw [Int.floor_eq_iff]
        norm_num [binary64])]
      norm_num [binary64])
    (by norm_num [binary64, abs_of_pos])
  rw [h]
  norm_num [binary64]

/-- In `double`, 2^60 - 96 rounds down to 2^60 - 128: the spacing there is 128. -/
theorem binary64_round_high_minus :
    binary64.round (2 ^ 60 + -96) = Value.Finite (2 ^ 60 - 128) := by
  have h := round_eq binary64 (2 ^ 60 + -96) 59 (2 ^ 53 - 1) (by norm_num)
    (by norm_num [abs_of_pos]) (by norm_num [abs_of_pos]) (by norm_num [binary64])
    (by
      rw [roundTiesToEven_of_floor _ (2 ^ 53 - 1) (by
        rw [Int.floor_eq_iff]
        norm_num [binary64])]
      norm_num [binary64])
    (by norm_num [binary64, abs_of_pos])
  rw [h]
  norm_num [binary64]

/-- In `double`, 2^60 is exact. -/
theorem binary64_round_high : binary64.round (2 ^ 60) = Value.Finite (2 ^ 60) := by
  have h := round_eq binary64 (2 ^ 60) 60 (2 ^ 52) (by norm_num)
    (by norm_num [abs_of_pos]) (by norm_num [abs_of_pos]) (by norm_num [binary64])
    (by
      rw [roundTiesToEven_of_floor _ (2 ^ 52) (by
        rw [Int.floor_eq_iff]
        norm_num [binary64])]
      norm_num [binary64])
    (by norm_num [binary64, abs_of_pos])
  rw [h]
  norm_num [binary64]

/-- In `float`, 1 is exact. -/
theorem binary32_round_one : binary32.round 1 = Value.Finite 1 := by
  have h := round_eq binary32 1 0 (2 ^ 23) (by norm_num)
    (by norm_num [abs_of_pos]) (by norm_num [abs_of_pos]) (by norm_num [binary32])
    (by
      rw [roundTiesToEven_of_floor _ (2 ^ 23) (by
        rw [Int.floor_eq_iff]
        norm_num [binary32])]
      norm_num [binary32])
    (by norm_num [binary32, abs_of_pos])
  rw [h]
  norm_num [binary32]

/-- In `double`, 7990149 / 2^15 is exact. -/
theorem binary64_round_base : binary64.round (7990149 / 2 ^ 15)
    = Value.Finite (7990149 / 2 ^ 15) := by
  have h := round_eq binary64 (7990149 / 2 ^ 15) 7 (7990149 * 2 ^ 30) (by norm_num)
    (by norm_num [abs_of_pos]) (by norm_num [abs_of_pos]) (by norm_num [binary64])
    (by
      rw [roundTiesToEven_of_floor _ (7990149 * 2 ^ 30) (by
        rw [Int.floor_eq_iff]
        norm_num [binary64])]
      norm_num [binary64])
    (by norm_num [binary64, abs_of_pos])
  rw [h]
  norm_num [binary64]

/-- In `double`, -7990149 / 2^15 is exact. -/
theorem binary64_round_neg_base : binary64.round (-(7990149 / 2 ^ 15))
    = Value.Finite (-(7990149 / 2 ^ 15)) := by
  have h := round_eq binary64 (-(7990149 / 2 ^ 15)) 7 (-(7990149 * 2 ^ 30)) (by norm_num)
    (by norm_num [abs_of_neg]) (by norm_num [abs_of_neg]) (by norm_num [binary64])
    (by
      rw [roundTiesToEven_of_floor _ (-(7990149 * 2 ^ 30)) (by
        rw [Int.floor_eq_iff]
        norm_num [binary64])]
      norm_num [binary64])
    (by norm_num [binary64, abs_of_neg])
  rw [h]
  norm_num [binary64]

namespace ASmartLinkProxy

/-- Every entry of the magnitude table passes the test `CodUnits <= 0.f`. -/
theorem float_GetCodUnitsFromMagnitude_passes (InMagnitude : ETraversalMagnitude) :
    (GetCodUnitsFromMagnitude InMagnitude).le (Value.Finite 0) = false := by
  cases InMagnitude <;> simp [GetCodUnitsFromMagnitude, Value.le]

/-- A value above zero passes the test `UnitsToCm <= 0.f`. -/
theorem float_le_zero_of_zero_lt (a : Value) (h : (Value.Finite 0).lt a = true) :
    a.le (Value.Finite 0) = false := by
  cases a with
  | Finite q =>
    simp only [Value.lt, decide_eq_true_eq] at h
    simp [Value.le, h]
  | Infinite Negative => cases Negative <;> simp_all [Value.lt, Value.le]
  | NaN => rfl

/-- The state of a snap that passes every guard: the three modification marks,
the end marker moved to the position its snap mode gives, then
`UpdateNavLinkNow`. -/
theorem float_SnapEndToMagnitude_of_ready (WITH_EDITOR : Bool) (self : ASmartLinkProxy)
    (Start End : UArrowComponent)
    (hStart : self.StartArrow = some Start) (hEnd : self.EndArrow = some End)
    (hUnits : self.UnitsToCm.le (Value.Finite 0) = false)
    (hMode : self.SnapMode ≠ ESnapMode.None) :
    self.SnapEndToMagnitude WITH_EDITOR
      = UpdateNavLinkNow WITH_EDITOR
          { self with
            EndArrow := some
              { End with
                RelativeLocation :=
                  match self.SnapMode with
                  | ESnapMode.None => Start.RelativeLocation
                  | ESnapMode.Up =>
                    { Start.RelativeLocation with
                      Z := binary64.add Start.RelativeLocation.Z
                        (binary32.mul (GetCodUnitsFromMagnitude self.Magnitude)
                          self.UnitsToCm) }
                  | ESnapMode.Down =>
                    { Start.RelativeLocation with
                      Z := binary64.sub Start.RelativeLocation.Z
                        (binary32.mul (GetCodUnitsFromMagnitude self.Magnitude)
                          self.UnitsToCm) }
                  | ESnapMode.Across =>
                    Start.RelativeLocation + self.GetAcrossOffsetRelative
                      (binary32.add
                        (binary32.mul (GetCodUnitsFromMagnitude self.Magnitude)
                          self.UnitsToCm)
                        self.AcrossExtraCm) }
            Trace := self.Trace ++
              [Effect.Modify, Effect.StartArrowModify, Effect.EndArrowModify,
               Effect.EndArrowSetRelativeLocation
                 (match self.SnapMode with
                  | ESnapMode.None => Start.RelativeLocation
                  | ESnapMode.Up =>
                    { Start.RelativeLocation with
                      Z := binary64.add Start.RelativeLocation.Z
                        (binary32.mul (GetCodUnitsFromMagnitude self.Magnitude)
                          self.UnitsToCm) }
                  | ESnapMode.Down =>
                    { Start.RelativeLocation with
                      Z := binary64.sub Start.RelativeLocation.Z
                        (binary32.mul (GetCodUnitsFromMagnitude self.Magnitude)
                          self.UnitsToCm) }
                  | ESnapMode.Across =>
                    Start.RelativeLocation + self.GetAcrossOffsetRelative
                      (binary32.add
                        (binary32.mul (GetCodUnitsFromMagnitude self.Magnitude)
                          self.UnitsToCm)
                        self.AcrossExtraCm))] } := by
  have hCod := float_GetCodUnitsFromMagnitude_passes self.Magnitude
  obtain ⟨⟨pl, comp, rel, tr⟩, sa, ea, mag, mode, axis, auto, u, extra, ls, le⟩ := self
  simp only at hStart hEnd hUnits hMode hCod
  subst hStart hEnd
  cases mode <;>
    simp_all [SnapEndToMagnitude, record, UArrowComponent.GetRelativeLocation,
      UArrowComponent.SetRelativeLocation, GetAcrossOffsetRelative]

/-- The state of a snap that stops at a guard: only the modification marks are
added to the record. -/
theorem float_SnapEndToMagnitude_of_abort (WITH_EDITOR : Bool) (self : ASmartLinkProxy)
    (h : self.UnitsToCm.le (Value.Finite 0) = true ∨ self.SnapMode = ESnapMode.None
      ∨ self.StartArrow = none ∨ self.EndArrow = none) :
    self.SnapEndToMagnitude WITH_EDITOR
      = { self with
          Trace := self.Trace ++ [Effect.Modify]
            ++ (if self.StartArrow.isSome then [Effect.StartArrowModify] else [])
            ++ (if self.EndArrow.isSome then [Effect.EndArrowModify] else []) } := by
  have hCod := float_GetCodUnitsFromMagnitude_passes self.Magnitude
  obtain ⟨⟨pl, comp, rel, tr⟩, sa, ea, mag, mode, axis, auto, u, extra, ls, le⟩ := self
  simp only at h hCod
  cases hu : u.le (Value.Finite 0) <;> cases sa <;> cases ea <;> cases mode <;>
    simp_all [SnapEndToMagnitude, record]

/-- `UpdateNavLinkNow` moves no marker. -/
theorem float_UpdateNavLinkNow_arrows (WITH_EDITOR : Bool) (self : ASmartLinkProxy) :
    (self.UpdateNavLinkNow WITH_EDITOR).StartArrow = self.StartArrow
      ∧ (self.UpdateNavLinkNow WITH_EDITOR).EndArrow = self.EndArrow := by
  obtain ⟨⟨pl, comp, rel, tr⟩, sa, ea, mag, mode, axis, auto, u, extra, ls, le⟩ := self
  cases sa <;> cases ea <;> cases comp <;> cases WITH_EDITOR <;>
    simp [UpdateNavLinkNow, record, SyncSmartLinkToEndpoints, GetSmartLinkComp]

/-- The calls `UpdateNavLinkNow` adds to the record: one `SetLinkData` with the
two marker positions when both markers and the component exist, then the render
refresh in an editor build. -/
theorem float_UpdateNavLinkNow_Trace (WITH_EDITOR : Bool) (self : ASmartLinkProxy) :
    (self.UpdateNavLinkNow WITH_EDITOR).Trace
      = self.Trace ++
        ((match self.StartArrow, self.EndArrow, self.SmartLinkComp with
          | some Start, some End, some _ =>
            [Effect.SetLinkData Start.RelativeLocation End.RelativeLocation
              ENavLinkDirection.BothWays]
          | _, _, _ => [])
          ++ (if WITH_EDITOR then [Effect.MarkComponentsRenderStateDirty] else [])) := by
  obtain ⟨⟨pl, comp, rel, tr⟩, sa, ea, mag, mode, axis, auto, u, extra, ls, le⟩ := self
  cases sa <;> cases ea <;> cases comp <;> cases WITH_EDITOR <;>
    simp [UpdateNavLinkNow, record, SyncSmartLinkToEndpoints, GetSmartLinkComp,
      UArrowComponent.GetRelativeLocation]

/-- The end marker after a snap that passes every guard, by snap mode. -/
theorem float_SnapEndToMagnitude_EndRel (WITH_EDITOR : Bool) (self : ASmartLinkProxy)
    (Start End : UArrowComponent)
    (hStart : self.StartArrow = some Start) (hEnd : self.EndArrow = some End)
    (hUnits : self.UnitsToCm.le (Value.Finite 0) = false)
    (hMode : self.SnapMode ≠ ESnapMode.None) :
    (self.SnapEndToMagnitude WITH_EDITOR).EndRel
      = some
        (match self.SnapMode with
         | ESnapMode.None => Start.RelativeLocation
         | ESnapMode.Up =>
           { Start.RelativeLocation with
             Z := binary64.add Start.RelativeLocation.Z
               (binary32.mul (GetCodUnitsFromMagnitude self.Magnitude) self.UnitsToCm) }
         | ESnapMode.Down =>
           { Start.RelativeLocation with
             Z := binary64.sub Start.RelativeLocation.Z
               (binary32.mul (GetCodUnitsFromMagnitude self.Magnitude) self.UnitsToCm) }
         | ESnapMode.Across =>
           Start.RelativeLocation + self.GetAcrossOffsetRelative
             (binary32.add
               (binary32.mul (GetCodUnitsFromMagnitude self.Magnitude) self.UnitsToCm)
               self.AcrossExtraCm)) := by
  rw [float_SnapEndToMagnitude_of_ready WITH_EDITOR self Start End hStart hEnd hUnits hMode]
  simp [EndRel, (float_UpdateNavLinkNow_arrows WITH_EDITOR _).2,
    UArrowComponent.GetRelativeLocation]

/-- The state of a snap that passes every guard, the new end position left
unnamed. -/
theorem float_SnapEndToMagnitude_of_ready_exists (WITH_EDITOR : Bool)
    (self : ASmartLinkProxy) (Start End : UArrowComponent)
    (hStart : self.StartArrow = some Start) (hEnd : self.EndArrow = some End)
    (hUnits : self.UnitsToCm.le (Value.Finite 0) = false)
    (hMode : self.SnapMode ≠ ESnapMode.None) :
    ∃ NewEnd : FVector,
      self.SnapEndToMagnitude WITH_EDITOR
        = UpdateNavLinkNow WITH_EDITOR
            { self with
              EndArrow := some (End.SetRelativeLocation NewEnd)
              Trace := self.Trace ++
                [Effect.Modify, Effect.StartArrowModify, Effect.EndArrowModify,
                 Effect.EndArrowSetRelativeLocation NewEnd] } :=
  ⟨_, float_SnapEndToMagnitude_of_ready WITH_EDITOR self Start End hStart hEnd hUnits hMode⟩

/-- C22, as stated, fails: with `UnitsToCm` NaN the test `UnitsToCm <= 0.f` is
false, so on the actor with both markers present, `SnapMode = Up` and
`UnitsToCm` NaN, where `UnitsToCm > 0` does not hold, the snap writes the end
marker (its Z becomes NaN) and hands the consumer the new link data. -/
theorem float_nan_units_snap_writes :
    ({ Jump96Up with UnitsToCm := Value.NaN } : ASmartLinkProxy).StartArrow ≠ none
      ∧ ({ Jump96Up with UnitsToCm := Value.NaN } : ASmartLinkProxy).EndArrow ≠ none
      ∧ ({ Jump96Up with UnitsToCm := Value.NaN } : ASmartLinkProxy).SnapMode = ESnapMode.Up
      ∧ (Value.Finite 0).lt
          ({ Jump96Up with UnitsToCm := Value.NaN } : ASmartLinkProxy).UnitsToCm = false
      ∧ ({ Jump96Up with UnitsToCm := Value.NaN }.SnapEndToMagnitude true).EndRel
          = some ⟨Value.Finite 0, Value.Finite (-50), Value.NaN⟩
      ∧ ({ Jump96Up with UnitsToCm := Value.NaN }.SnapEndToMagnitude true).Trace
          = [Effect.Modify, Effect.StartArrowModify, Effect.EndArrowModify,
             Effect.EndArrowSetRelativeLocation
               ⟨Value.Finite 0, Value.Finite (-50), Value.NaN⟩,
             Effect.SetLinkData ⟨Value.Finite 0, Value.Finite (-50), Value.Finite 0⟩
               ⟨Value.Finite 0, Value.Finite (-50), Value.NaN⟩ ENavLinkDirection.BothWays,
             Effect.MarkComponentsRenderStateDirty] := by
  refine ⟨by simp [Jump96Up], by simp [Jump96Up], rfl, rfl, ?_, ?_⟩
  · rw [float_SnapEndToMagnitude_EndRel true { Jump96Up with UnitsToCm := Value.NaN }
      ⟨⟨Value.Finite 0, Value.Finite (-50), Value.Finite 0⟩, Value.Finite 1⟩
      ⟨⟨Value.Finite 7, Value.Finite 50, Value.Finite 9⟩, Value.Finite 1⟩
      rfl rfl rfl (by simp [Jump96Up])]
    simp [Jump96Up, GetCodUnitsFromMagnitude, Format.mul, Format.add]
  · rw [float_SnapEndToMagnitude_of_ready true { Jump96Up with UnitsToCm := Value.NaN }
      ⟨⟨Value.Finite 0, Value.Finite (-50), Value.Finite 0⟩, Value.Finite 1⟩
      ⟨⟨Value.Finite 7, Value.Finite 50, Value.Finite 9⟩, Value.Finite 1⟩
      rfl rfl rfl (by simp [Jump96Up]), float_UpdateNavLinkNow_Trace]
    simp [Jump96Up, GetCodUnitsFromMagnitude, Format.mul, Format.add]

/-- C22, amended: `SnapEndToMagnitude` writes the end marker, and goes on to
`UpdateNavLinkNow`, if and only if both markers are present, the test
`UnitsToCm <= 0.f` is false and `SnapMode` is `Up`, `Down` or `Across`. The test
is false exactly when `UnitsToCm > 0` or `UnitsToCm` is NaN. Each of the eleven
magnitudes resolves to a strictly positive number of units, so the test
`CodUnits <= 0.f` never stops a call and `Magnitude` does not enter the
condition. When the condition fails the call records its modification marks and
does nothing else. -/
theorem float_snap_writes_iff_guard_passes :
    (∀ InMagnitude : ETraversalMagnitude,
        (GetCodUnitsFromMagnitude InMagnitude).le (Value.Finite 0) = false
          ∧ (Value.Finite 0).lt (GetCodUnitsFromMagnitude InMagnitude) = true)
      ∧ (∀ a : Value,
          a.le (Value.Finite 0) = false ↔ (Value.Finite 0).lt a = true ∨ a = Value.NaN)
      ∧ (∀ (WITH_EDITOR : Bool) (self : ASmartLinkProxy),
          ∃ added : List Effect,
            (self.SnapEndToMagnitude WITH_EDITOR).Trace = self.Trace ++ added
              ∧ ((∃ NewEnd : FVector, Effect.EndArrowSetRelativeLocation NewEnd ∈ added)
                ↔ (self.StartArrow ≠ none ∧ self.EndArrow ≠ none
                    ∧ self.UnitsToCm.le (Value.Finite 0) = false
                    ∧ (self.SnapMode = ESnapMode.Up ∨ self.SnapMode = ESnapMode.Down
                        ∨ self.SnapMode = ESnapMode.Across))))
      ∧ (∀ (WITH_EDITOR : Bool) (self : ASmartLinkProxy) (Start End : UArrowComponent),
          self.StartArrow = some Start → self.EndArrow = some End →
          self.UnitsToCm.le (Value.Finite 0) = false →
          (self.SnapMode = ESnapMode.Up ∨ self.SnapMode = ESnapMode.Down
            ∨ self.SnapMode = ESnapMode.Across) →
          ∃ NewEnd : FVector,
            self.SnapEndToMagnitude WITH_EDITOR
              = UpdateNavLinkNow WITH_EDITOR
                  { self with
                    EndArrow := some (End.SetRelativeLocation NewEnd)
                    Trace := self.Trace ++
                      [Effect.Modify, Effect.StartArrowModify, Effect.EndArrowModify,
                       Effect.EndArrowSetRelativeLocation NewEnd] })
      ∧ (∀ (WITH_EDITOR : Bool) (self : ASmartLinkProxy),
          ¬(self.StartArrow ≠ none ∧ self.EndArrow ≠ none
              ∧ self.UnitsToCm.le (Value.Finite 0) = false
              ∧ (self.SnapMode = ESnapMode.Up ∨ self.SnapMode = ESnapMode.Down
                  ∨ self.SnapMode = ESnapMode.Across)) →
          self.SnapEndToMagnitude WITH_EDITOR
            = { self with
                Trace := self.Trace ++ [Effect.Modify]
                  ++ (if self.StartArrow.isSome then [Effect.StartArrowModify] else [])
                  ++ (if self.EndArrow.isSome then [Effect.EndArrowModify] else []) }) := by
  have hMode : ∀ mode : ESnapMode,
      (mode = ESnapMode.Up ∨ mode = ESnapMode.Down ∨ mode = ESnapMode.Across)
        ↔ mode ≠ ESnapMode.None := by
    intro mode
    cases mode <;> simp
  have hGuard : ∀ self : ASmartLinkProxy,
      ¬(self.StartArrow ≠ none ∧ self.EndArrow ≠ none
          ∧ self.UnitsToCm.le (Value.Finite 0) = false
          ∧ (self.SnapMode = ESnapMode.Up ∨ self.SnapMode = ESnapMode.Down
              ∨ self.SnapMode = ESnapMode.Across)) →
      (self.UnitsToCm.le (Value.Finite 0) = true ∨ self.SnapMode = ESnapMode.None
        ∨ self.StartArrow = none ∨ self.EndArrow = none) := by
    intro self h
    rw [hMode] at h
    by_contra hc
    simp only [not_or, Bool.not_eq_true] at hc
    exact h ⟨hc.2.2.1, hc.2.2.2, hc.1, hc.2.1⟩
  refine ⟨?_, ?_, ?_, ?_, ?_⟩
  · intro InMagnitude
    cases InMagnitude <;> simp [GetCodUnitsFromMagnitude, Value.le, Value.lt]
  · intro a
    cases a with
    | Finite q => simp [Value.le, Value.lt]
    | Infinite Negative => cases Negative <;> simp [Value.le, Value.lt]
    | NaN => simp [Value.le]
  · intro WITH_EDITOR self
    by_cases hReady : self.StartArrow ≠ none ∧ self.EndArrow ≠ none
        ∧ self.UnitsToCm.le (Value.Finite 0) = false
        ∧ (self.SnapMode = ESnapMode.Up ∨ self.SnapMode = ESnapMode.Down
            ∨ self.SnapMode = ESnapMode.Across)
    · obtain ⟨hStart, hEnd, hUnits, hSnapMode⟩ := hReady
      obtain ⟨Start, hStart⟩ := Option.ne_none_iff_exists'.mp hStart
      obtain ⟨End, hEnd⟩ := Option.ne_none_iff_exists'.mp hEnd
      obtain ⟨NewEnd, hSnap⟩ := float_SnapEndToMagnitude_of_ready_exists WITH_EDITOR self
        Start End hStart hEnd hUnits ((hMode _).mp hSnapMode)
      rw [hSnap, float_UpdateNavLinkNow_Trace]
      refine ⟨_, List.append_assoc _ _ _, ?_⟩
      constructor
      · intro _
        exact ⟨by simp [hStart], by simp [hEnd], hUnits, hSnapMode⟩
      · intro _
        exact ⟨NewEnd, by simp⟩
    · rw [float_SnapEndToMagnitude_of_abort WITH_EDITOR self (hGuard self hReady)]
      refine ⟨_, List.append_assoc _ _ _ |>.trans (List.append_assoc _ _ _), ?_⟩
      constructor
      · rintro ⟨NewEnd, h⟩
        cases self.StartArrow <;> cases self.EndArrow <;> simp at h
      · intro h
        exact absurd h hReady
  · intro WITH_EDITOR self Start End hStart hEnd hUnits hSnapMode
    exact float_SnapEndToMagnitude_of_ready_exists WITH_EDITOR self Start End hStart hEnd
      hUnits ((hMode _).mp hSnapMode)
  · intro WITH_EDITOR self hNot
    exact float_SnapEndToMagnitude_of_abort WITH_EDITOR self (hGuard self hNot)

/-- C3, as stated, fails: on the actor with both markers present, `UnitsToCm = 1`
(a `float`), Jump96 and its start marker at Z = 2^60 (a `double`), the `Up` snap leaves the end marker at
Z = 2^60 (the 96 is lost to rounding, displacement 0) and the `Down` snap puts it
at Z = 2^60 - 128 (displacement -128): the second displacement is not the
negation of the first. -/
theorem float_down_displacement_not_negated :
    binary32.IsValue HighUp.UnitsToCm = true
      ∧ binary64.IsValue (Value.Finite (2 ^ 60)) = true
      ∧ (Value.Finite 0).lt HighUp.UnitsToCm = true
      ∧ HighUp.StartRel = some ⟨Value.Finite 0, Value.Finite (-50), Value.Finite (2 ^ 60)⟩
      ∧ ({ HighUp with SnapMode := ESnapMode.Up }.SnapEndToMagnitude true).EndRel
          = some ⟨Value.Finite 0, Value.Finite (-50), Value.Finite (2 ^ 60)⟩
      ∧ ({ HighUp with SnapMode := ESnapMode.Down }.SnapEndToMagnitude true).EndRel
          = some ⟨Value.Finite 0, Value.Finite (-50), Value.Finite (2 ^ 60 - 128)⟩
      ∧ ((2 : ℚ) ^ 60 - 128) - 2 ^ 60 ≠ -((2 : ℚ) ^ 60 - 2 ^ 60) := by
  refine ⟨by simp [HighUp, Format.IsValue, binary32_round_one],
    by simp [Format.IsValue, binary64_round_high],
    by simp [HighUp, Value.lt], rfl, ?_, ?_, by norm_num⟩
  · rw [float_SnapEndToMagnitude_EndRel true { HighUp with SnapMode := ESnapMode.Up }
      ⟨⟨Value.Finite 0, Value.Finite (-50), Value.Finite (2 ^ 60)⟩, Value.Finite 1⟩
      ⟨⟨Value.Finite 7, Value.Finite 50, Value.Finite 9⟩, Value.Finite 1⟩
      rfl rfl (by simp [HighUp, Value.le]) (by simp)]
    simp only [HighUp, Jump96Up, GetCodUnitsFromMagnitude, Format.mul, Format.add, mul_one,
      binary32_round_96, binary64_round_high_plus]
  · rw [float_SnapEndToMagnitude_EndRel true { HighUp with SnapMode := ESnapMode.Down }
      ⟨⟨Value.Finite 0, Value.Finite (-50), Value.Finite (2 ^ 60)⟩, Value.Finite 1⟩
      ⟨⟨Value.Finite 7, Value.Finite 50, Value.Finite 9⟩, Value.Finite 1⟩
      rfl rfl (by simp [HighUp, Value.le]) (by simp)]
    simp only [HighUp, Jump96Up, GetCodUnitsFromMagnitude, Format.mul, Format.sub, Format.add,
      Value.neg, mul_one, binary32_round_96, binary64_round_high_minus]

/-- C3, amended: from one state with both markers present and `UnitsToCm > 0`,
the `Up` snap puts the end marker at the start marker's X and Y and at
Z = start.Z + BaseDistanceCm, the `Down` snap at the same X and Y and at
Z = start.Z - BaseDistanceCm, for one and the same
`BaseDistanceCm = CodUnits * UnitsToCm`, each sum rounded once to `double`.
Whenever neither sum is rounded, the vertical displacement of the `Down` snap is
the exact negation of that of the `Up` snap. -/
theorem float_snap_down_mirrors_up (WITH_EDITOR : Bool) (self : ASmartLinkProxy)
    (Start End : UArrowComponent)
    (hStart : self.StartArrow = some Start) (hEnd : self.EndArrow = some End)
    (hUnits : (Value.Finite 0).lt self.UnitsToCm = true) :
    ({ self with SnapMode := ESnapMode.Up }.SnapEndToMagnitude WITH_EDITOR).EndRel
        = some
          ⟨Start.RelativeLocation.X, Start.RelativeLocation.Y,
            binary64.add Start.RelativeLocation.Z
              (binary32.mul (GetCodUnitsFromMagnitude self.Magnitude) self.UnitsToCm)⟩
      ∧ ({ self with SnapMode := ESnapMode.Down }.SnapEndToMagnitude WITH_EDITOR).EndRel
          = some
            ⟨Start.RelativeLocation.X, Start.RelativeLocation.Y,
              binary64.sub Start.RelativeLocation.Z
                (binary32.mul (GetCodUnitsFromMagnitude self.Magnitude) self.UnitsToCm)⟩
      ∧ ∀ z b : ℚ,
          Start.RelativeLocation.Z = Value.Finite z →
          binary32.mul (GetCodUnitsFromMagnitude self.Magnitude) self.UnitsToCm
            = Value.Finite b →
          binary64.round (z + b) = Value.Finite (z + b) →
          binary64.round (z - b) = Value.Finite (z - b) →
          ∃ Up Down : ℚ,
            ({ self with SnapMode := ESnapMode.Up }.SnapEndToMagnitude WITH_EDITOR).EndRel
                = some ⟨Start.RelativeLocation.X, Start.RelativeLocation.Y, Value.Finite Up⟩
              ∧ ({ self with SnapMode := ESnapMode.Down }.SnapEndToMagnitude
                    WITH_EDITOR).EndRel
                  = some
                    ⟨Start.RelativeLocation.X, Start.RelativeLocation.Y, Value.Finite Down⟩
              ∧ Down - z = -(Up - z)
              ∧ Up - z = b := by
  have hGuard := float_le_zero_of_zero_lt self.UnitsToCm hUnits
  have hUp := float_SnapEndToMagnitude_EndRel WITH_EDITOR
    { self with SnapMode := ESnapMode.Up } Start End hStart hEnd hGuard (by simp)
  have hDown := float_SnapEndToMagnitude_EndRel WITH_EDITOR
    { self with SnapMode := ESnapMode.Down } Start End hStart hEnd hGuard (by simp)
  simp only at hUp hDown
  refine ⟨hUp, hDown, ?_⟩
  intro z b hZ hB hUpExact hDownExact
  refine ⟨z + b, z - b, ?_, ?_, by ring, by ring⟩
  · rw [hUp, hB, hZ]
    simp only [Format.add, hUpExact]
  · rw [hDown, hB, hZ]
    simp only [Format.sub, Format.add, Value.neg, ← sub_eq_add_neg, hDownExact]

/-- C3, amended, at the actor with the header's defaults (start marker
(0,-50,0), Jump96, `UnitsToCm = 2.54f`): `BaseDistanceCm` is 7990149 / 2^15, the
`float` nearest to 243.84; `Up` ends at Z = 7990149 / 2^15 and `Down` at
Z = -7990149 / 2^15. -/
theorem float_snap_down_mirrors_up_witness :
    ({ Jump96Up with SnapMode := ESnapMode.Up }.SnapEndToMagnitude true).EndRel
        = some ⟨Value.Finite 0, Value.Finite (-50), Value.Finite (7990149 / 2 ^ 15)⟩
      ∧ ({ Jump96Up with SnapMode := ESnapMode.Down }.SnapEndToMagnitude true).EndRel
          = some ⟨Value.Finite 0, Value.Finite (-50), Value.Finite (-(7990149 / 2 ^ 15))⟩ := by
  have h := float_snap_down_mirrors_up true Jump96Up
    ⟨⟨Value.Finite 0, Value.Finite (-50), Value.Finite 0⟩, Value.Finite 1⟩
    ⟨⟨Value.Finite 7, Value.Finite 50, Value.Finite 9⟩, Value.Finite 1⟩ rfl rfl
    (by simp [Jump96Up, Value.lt])
  obtain ⟨Up, Down, hUp, hDown, hNeg, hB⟩ := h.2.2 0 (7990149 / 2 ^ 15) rfl
    (by
      simp only [Jump96Up, GetCodUnitsFromMagnitude, Format.mul]
      exact binary32_round_base)
    (by
      rw [zero_add]
      exact binary64_round_base)
    (by
      rw [zero_sub]
      exact binary64_round_neg_base)
  have hUpVal : Up = 7990149 / 2 ^ 15 := by linarith
  have hDownVal : Down = -(7990149 / 2 ^ 15) := by linarith
  rw [hUpVal] at hUp
  rw [hDownVal] at hDown
  exact ⟨hUp, hDown⟩

end ASmartLinkProxy

end IEEE
